import Mathlib

/-!
Verification of the KnockoffArcade simulation core.

This file gives a shallow embedding of the parts of the game that the
checked properties talk about:

* the KnockoffArcade per-frame update pipeline (paddle, balls with the
  cavity state machine, falling power-ups, collisions, level completion),
  embedded over the rationals;
* the Ball and Paddle entity classes (boundary collisions, power-up
  expiry, serialization);
* the AudioManager background-music bookkeeping (current-source tracking
  and the idempotent stop).

Modelling conventions, stated once here:

* JS numbers are modelled by the rationals.  All claim-relevant numeric
  behaviour (assignments, sign flips, comparisons against constants,
  exact restoration of stored values) is representation independent.
* Object identity of balls is modelled by an id field carried in the
  state; the primary ball object (this.ball) aliases the entry of the
  active-ball list with the same id, so every per-id mutation of the list
  is mirrored on the stored primary snapshot.
* The only key ever read or written on a KnockoffArcade ball powerUps
  object is the spike key, so it is modelled as an Option field.
* Math.random draws are threaded as explicit oracle arguments (the
  boolean outcome of a drop roll, the chosen power-up index, the sign of
  the respawn direction).
* Particle objects are write-only render state with randomly drawn
  attributes; no modelled field ever reads them back, so the particles
  collection and sound-event emissions are omitted from the state.
* Math.sqrt has no exact rational counterpart; the Ball entity update is
  parameterized by the square-root routine, which only feeds the
  render-only energyLevel field.
-/

/-- Association-list erase (JS Map.delete): removes the given key. -/
def eraseA {κ α : Type} [DecidableEq κ] : List (κ × α) → κ → List (κ × α)
  | [], _ => []
  | p :: t, k => if p.1 = k then eraseA t k else p :: eraseA t k

/-- Association-list set (JS Map.set): lookup-equivalent overwrite. -/
def setA {κ α : Type} [DecidableEq κ] (l : List (κ × α)) (k : κ) (v : α) :
    List (κ × α) :=
  (k, v) :: eraseA l k

/-- Association-list lookup (JS Map.get). -/
def lookupA {κ α : Type} [DecidableEq κ] : List (κ × α) → κ → Option α
  | [], _ => none
  | p :: t, k => if p.1 = k then some p.2 else lookupA t k

/-- Set insert (JS Set.add): no duplicates. -/
def insertS {κ : Type} [DecidableEq κ] (l : List κ) (k : κ) : List κ :=
  if k ∈ l then l else k :: l

/-- Set erase (JS Set.delete). -/
def eraseS {κ : Type} [DecidableEq κ] : List κ → κ → List κ
  | [], _ => []
  | x :: t, k => if x = k then eraseS t k else x :: eraseS t k

/-- JS Math.sign. -/
def jsSign (q : ℚ) : ℚ :=
  if 0 < q then 1 else if q < 0 then -1 else 0

/-- Modify the i-th element of a list, when present. -/
def listModify {α : Type} (l : List α) (i : ℕ) (f : α → α) : List α :=
  match l.get? i with
  | some a => l.set i (f a)
  | none => l

theorem lookupA_eraseA_ne {κ α : Type} [DecidableEq κ]
    (l : List (κ × α)) (k k' : κ) (h : k' ≠ k) :
    lookupA (eraseA l k) k' = lookupA l k' := by
  induction l with
  | nil => rfl
  | cons p t ih =>
    have hkk : k ≠ k' := fun e => h e.symm
    by_cases hp : p.1 = k
    · have hk' : p.1 ≠ k' := by rw [hp]; exact hkk
      simp [eraseA, lookupA, hp, hk', hkk, ih]
    · by_cases hk' : p.1 = k'
      · simp [eraseA, lookupA, hp, hk', h, ih]
      · simp [eraseA, lookupA, hp, hk', h, ih]

theorem lookupA_setA_self {κ α : Type} [DecidableEq κ]
    (l : List (κ × α)) (k : κ) (v : α) :
    lookupA (setA l k v) k = some v := by
  simp [lookupA, setA]

theorem lookupA_setA_ne {κ α : Type} [DecidableEq κ]
    (l : List (κ × α)) (k k' : κ) (v : α) (h : k' ≠ k) :
    lookupA (setA l k v) k' = lookupA l k' := by
  have hk : k ≠ k' := fun e => h e.symm
  simp [setA, lookupA, hk, lookupA_eraseA_ne l k k' h]

theorem lookupA_eraseA_self {κ α : Type} [DecidableEq κ]
    (l : List (κ × α)) (k : κ) :
    lookupA (eraseA l k) k = none := by
  induction l with
  | nil => rfl
  | cons p t ih =>
    by_cases hp : p.1 = k
    · simp [eraseA, hp, ih]
    · simp [eraseA, lookupA, hp, ih]

theorem mem_insertS_iff {κ : Type} [DecidableEq κ] (l : List κ) (k k' : κ) :
    k' ∈ insertS l k ↔ k' = k ∨ k' ∈ l := by
  by_cases h : k ∈ l
  · simp only [insertS, if_pos h]
    constructor
    · exact fun hm => Or.inr hm
    · rintro (e | hm)
      · rw [e]; exact h
      · exact hm
  · simp [insertS, h]

theorem mem_eraseS_iff {κ : Type} [DecidableEq κ] (l : List κ) (k k' : κ) :
    k' ∈ eraseS l k ↔ k' ∈ l ∧ k' ≠ k := by
  induction l with
  | nil => simp [eraseS]
  | cons x t ih =>
    by_cases hx : x = k
    · simp only [eraseS, if_pos hx, ih, List.mem_cons]
      constructor
      · exact fun ⟨hm, hne⟩ => ⟨Or.inr hm, hne⟩
      · rintro ⟨(e | hm), hne⟩
        · exact absurd (e.trans hx) hne
        · exact ⟨hm, hne⟩
    · simp only [eraseS, if_neg hx, List.mem_cons, ih]
      constructor
      · rintro (e | ⟨hm, hne⟩)
        · exact ⟨Or.inl e, by rw [e]; exact hx⟩
        · exact ⟨Or.inr hm, hne⟩
      · rintro ⟨(e | hm), hne⟩
        · exact Or.inl e
        · exact Or.inr ⟨hm, hne⟩

/-- Game phase of the KnockoffArcade state machine. -/
inductive GamePhase where
  | start
  | playing
  | gameOver
deriving DecidableEq

/-- Western-themed power-up types dispatched in KnockoffArcade.applyPowerUp. -/
inductive WesternPowerUpType where
  | dynamite
  | whiskey
  | horseshoe
  | boots
  | sheriffBadge
deriving DecidableEq

/-- The i-th entry of the types array in KnockoffArcade.createPowerUp. -/
def westernTypeOfIndex : Fin 5 → WesternPowerUpType
  | 0 => .dynamite
  | 1 => .whiskey
  | 2 => .horseshoe
  | 3 => .boots
  | 4 => .sheriffBadge

/-- A KnockoffArcade ball object.  The id models JS object identity; spike
models the only powerUps key this class ever uses. -/
structure KABall where
  id : ℕ
  x : ℚ
  y : ℚ
  radius : ℚ
  speedX : ℚ
  speedY : ℚ
  spike : Option ℚ
deriving DecidableEq

/-- A KnockoffArcade brick.  colorRow stores the palette row index used by
getBrickColor. -/
structure KABrick where
  x : ℚ
  y : ℚ
  width : ℚ
  height : ℚ
  visible : Bool
  hits : ℕ
  colorRow : ℕ
deriving DecidableEq

/-- A falling power-up pickup (the color field is the parallel-array image
of the type field, so it is not stored separately). -/
structure FallingPowerUp where
  x : ℚ
  y : ℚ
  width : ℚ
  height : ℚ
  type : WesternPowerUpType
deriving DecidableEq

/-- The KnockoffArcade paddle object (its powerUps object is only ever
reset to empty and never read in this class, so it is omitted). -/
structure KAPaddle where
  x : ℚ
  y : ℚ
  width : ℚ
  height : ℚ
  speed : ℚ
deriving DecidableEq

/-- The KnockoffArcade game state touched by the per-frame update.  The
keyLeft and keyRight fields fold the two keyboard aliases for each
direction; nextId supplies fresh ids for cloned ball objects. -/
structure KnockoffArcade where
  gameState : GamePhase
  score : ℕ
  lives : ℤ
  level : ℕ
  combo : ℕ
  multiplier : ℕ
  balls : List KABall
  ball : KABall
  bricks : List KABrick
  powerUps : List FallingPowerUp
  cavityBalls : List ℕ
  cavityTimers : List (ℕ × ℚ)
  originalSpeeds : List (ℕ × (ℚ × ℚ))
  paddle : KAPaddle
  canvasWidth : ℚ
  canvasHeight : ℚ
  keyLeft : Bool
  keyRight : Bool
  nextId : ℕ
deriving DecidableEq

namespace KnockoffArcade

/-- The scale factor computed at several sites from the canvas size. -/
def scaleOf (g : KnockoffArcade) : ℚ :=
  min g.canvasWidth g.canvasHeight / 800

/-- KnockoffArcade.createBricks: regenerates the 8-row brick grid. -/
def createBricks (g : KnockoffArcade) : KnockoffArcade :=
  let scale := scaleOf g
  let brickWidth := 75 * scale
  let brickHeight := 20 * scale
  let padding := 5 * scale
  let rows : ℕ := 8
  let cols : ℕ := (((g.canvasWidth - padding * 2) / (brickWidth + padding)).floor).toNat
  { g with bricks :=
      (List.range rows).flatMap (fun row =>
        (List.range cols).map (fun col =>
          { x := padding + col * (brickWidth + padding)
            y := padding + 100 * scale + row * (brickHeight + padding)
            width := brickWidth
            height := brickHeight
            visible := true
            hits := 1
            colorRow := row % 8 })) }

/-- KnockoffArcade.resetBall: recenters the primary ball object, resets its
power-ups, resets the paddle width, and makes the primary the only active
ball.  randPos is the outcome of the Math.random direction draw. -/
def resetBall (g : KnockoffArcade) (randPos : Bool) : KnockoffArcade :=
  let scale := scaleOf g
  let b := { g.ball with
    x := g.canvasWidth / 2
    y := g.canvasHeight / 2
    speedX := (if randPos then 1 else -1) * 2 * scale
    speedY := -(2 * scale)
    spike := none }
  { g with
    ball := b
    balls := [b]
    paddle := { g.paddle with width := 120 * scale } }

/-- KnockoffArcade.levelComplete: increments the level, resets combo and
multiplier, then awards level * 1000 using the already incremented level,
regenerates the bricks and respawns the ball. -/
def levelComplete (g : KnockoffArcade) (randPos : Bool) : KnockoffArcade :=
  let g1 := { g with level := g.level + 1, combo := 0, multiplier := 1 }
  let g2 := { g1 with score := g1.score + g1.level * 1000 }
  resetBall (createBricks g2) randPos

/-- KnockoffArcade.checkGameState: fires level completion when no visible
brick remains. -/
def checkGameState (g : KnockoffArcade) (randPos : Bool) : KnockoffArcade :=
  if (g.bricks.filter (fun b => b.visible)).length = 0 then
    levelComplete g randPos
  else g

/-- The multiplier recompute on lines 704 to 707 of KnockoffArcade.hitBrick:
only fires once combo exceeds 5, and clamps at 5. -/
def recomputeMultiplier (combo multiplier : ℕ) : ℕ :=
  if 5 < combo then min 5 (combo / 5 + 1) else multiplier

/-- Apply a per-object mutation to the ball with the given id, mirroring it
on the aliased primary snapshot. -/
def mapBallId (g : KnockoffArcade) (bid : ℕ) (f : KABall → KABall) :
    KnockoffArcade :=
  { g with
    balls := g.balls.map (fun b => if b.id = bid then f b else b)
    ball := if g.ball.id = bid then f g.ball else g.ball }

/-- Apply a mutation to every active ball (balls.forEach), mirroring it on
the primary snapshot when the primary is active. -/
def mapAllBalls (g : KnockoffArcade) (f : KABall → KABall) :
    KnockoffArcade :=
  { g with
    balls := g.balls.map f
    ball := if g.balls.any (fun b => b.id == g.ball.id) then f g.ball
            else g.ball }

/-- KnockoffArcade.applyPowerUp: the switch over the western power-up
types.  now is the Date.now reading for the spike expiry. -/
def applyPowerUp (g : KnockoffArcade) (t : WesternPowerUpType) (now : ℚ) :
    KnockoffArcade :=
  match t with
  | .dynamite =>
      if g.balls.length < 5 then
        let newBall := { g.ball with
          id := g.nextId
          speedX := -g.ball.speedX }
        { g with balls := g.balls ++ [newBall], nextId := g.nextId + 1 }
      else g
  | .whiskey =>
      { g with paddle := { g.paddle with width := g.paddle.width * 1.5 } }
  | .boots =>
      mapAllBalls g (fun b =>
        { b with speedX := b.speedX * 1.5, speedY := b.speedY * 1.5 })
  | .sheriffBadge =>
      mapAllBalls g (fun b => { b with spike := some (now + 10000) })
  | .horseshoe =>
      mapAllBalls g (fun b =>
        { b with speedX := b.speedX * 0.5, speedY := b.speedY * 0.5 })

/-- KnockoffArcade.createPowerUp: pushes a pickup of the randomly chosen
type, centered 30 left of the given point. -/
def createPowerUp (g : KnockoffArcade) (x y : ℚ) (typeRoll : Fin 5) :
    KnockoffArcade :=
  { g with powerUps := g.powerUps ++
      [{ x := x - 30, y := y, width := 60, height := 60,
         type := westernTypeOfIndex typeRoll }] }

/-- KnockoffArcade.findNextBrick: locates the grid neighbour of a brick in
the given direction, returning its index in the bricks array. -/
def findNextBrickIdx (g : KnockoffArcade) (current : KABrick)
    (dirX dirY : ℚ) : Option ℕ :=
  let scale := scaleOf g
  let brickWidth := 75 * scale
  let brickHeight := 20 * scale
  let padding := 5 * scale
  let nextX := current.x + dirX * (brickWidth + padding)
  let nextY := current.y + dirY * (brickHeight + padding)
  g.bricks.findIdx? (fun b =>
    b.visible && decide (|b.x - nextX| < brickWidth / 2) &&
      decide (|b.y - nextY| < brickHeight / 2))

/-- One iteration of the bricksHit.forEach body in hitBrick: hides the
brick, scores it with the cavity bonus, bumps the combo, and rolls a
power-up drop for the originally impacted brick only. -/
def processBrickHit (origIdx : ℕ) (ballId : ℕ) (dropRoll : Bool)
    (typeRoll : Fin 5) (g : KnockoffArcade) (i : ℕ) : KnockoffArcade :=
  match g.bricks.get? i with
  | none => g
  | some brick =>
    let g1 := { g with
      bricks := listModify g.bricks i (fun b => { b with visible := false }) }
    let points := 100 * g.multiplier
    let ballInCavity :=
      ballId ∈ g.cavityBalls ∨ lookupA g.cavityTimers ballId ≠ none
    let points := if ballInCavity then points * 2 else points
    let g2 := { g1 with score := g1.score + points, combo := g1.combo + 1 }
    if i = origIdx ∧ dropRoll ∧ g2.powerUps.length < 2 then
      createPowerUp g2 (brick.x + brick.width / 2) (brick.y + brick.height / 2)
        typeRoll
    else g2

/-- The spike chain of hitBrick: the impacted brick plus up to two more
bricks stepped in the direction of travel. -/
def spikeChain (g : KnockoffArcade) (brickIdx : ℕ) (brick : KABrick)
    (dirX dirY : ℚ) : List ℕ :=
  match findNextBrickIdx g brick dirX dirY with
  | none => [brickIdx]
  | some j =>
    match g.bricks.get? j with
    | none => [brickIdx]
    | some bj =>
      match findNextBrickIdx g bj dirX dirY with
      | none => [brickIdx, j]
      | some j2 => [brickIdx, j, j2]

/-- KnockoffArcade.hitBrick: resolves a ball-brick impact, including the
spike chain, cavity-doubled scoring, the multiplier recompute, and the
bounce suppression for spiked balls. -/
def hitBrick (g : KnockoffArcade) (brickIdx : ℕ) (ballId : ℕ) (now : ℚ)
    (dropRoll : Bool) (typeRoll : Fin 5) : KnockoffArcade :=
  match g.bricks.get? brickIdx, g.balls.find? (fun b => b.id == ballId) with
  | some brick, some ball =>
    let hasSpike : Bool := match ball.spike with
      | some t => decide (now < t)
      | none => false
    let bricksHit : List ℕ :=
      if hasSpike then
        spikeChain g brickIdx brick (jsSign ball.speedX) (jsSign ball.speedY)
      else [brickIdx]
    let g1 := bricksHit.foldl (processBrickHit brickIdx ballId dropRoll typeRoll) g
    let g2 := { g1 with
      multiplier := recomputeMultiplier g1.combo g1.multiplier }
    if hasSpike then g2
    else mapBallId g2 ballId (fun b => { b with speedY := -b.speedY })
  | _, _ => g

end KnockoffArcade


namespace KnockoffArcade

/-- Lines 505 to 529 of updateBalls: the cavity enter and leave transitions
for one (already moved) ball.  Entering adds the ball to the cavity set,
awards the entry bonus, records the original speed and boosts the velocity
by 1.8; leaving removes it from the set and starts the 5 second timer.
Note that entering does NOT clear a still-running timer. -/
def cavityTransition (g : KnockoffArcade) (b : KABall) (now : ℚ) :
    KnockoffArcade × KABall :=
  let topBrickY : ℚ := 80
  let wasInCavity := b.id ∈ g.cavityBalls
  let isInCavity := b.y < topBrickY
  if isInCavity ∧ ¬ wasInCavity then
    ({ g with
        cavityBalls := insertS g.cavityBalls b.id
        score := g.score + 50
        originalSpeeds := setA g.originalSpeeds b.id (b.speedX, b.speedY) },
     { b with speedX := b.speedX * 1.8, speedY := b.speedY * 1.8 })
  else if ¬ isInCavity ∧ wasInCavity then
    ({ g with
        cavityBalls := eraseS g.cavityBalls b.id
        cavityTimers := setA g.cavityTimers b.id (now + 5000) }, b)
  else (g, b)

/-- Lines 531 to 547 of updateBalls: expiry of the cavity grace timer,
restoring the recorded original speed exactly and clearing both map
entries. -/
def cavityExpiry (g : KnockoffArcade) (b : KABall) (now : ℚ) :
    KnockoffArcade × KABall :=
  match lookupA g.cavityTimers b.id with
  | none => (g, b)
  | some t =>
    if now > t then
      let g1 := { g with cavityTimers := eraseA g.cavityTimers b.id }
      match lookupA g1.originalSpeeds b.id with
      | some sp =>
          ({ g1 with originalSpeeds := eraseA g1.originalSpeeds b.id },
           { b with speedX := sp.1, speedY := sp.2 })
      | none => (g1, b)
    else (g, b)

/-- The whole per-ball body of the updateBalls loop: position integration,
cavity transitions, timer expiry, wall sign flips, and the bottom-loss
test with its bookkeeping cleanup.  Returns the updated shared state, the
final ball object (the lost ball object survives through the aliased
primary reference) and whether the ball stays active. -/
def updateBallStep (g : KnockoffArcade) (b0 : KABall) (now : ℚ) :
    KnockoffArcade × KABall × Bool :=
  let b1 := { b0 with x := b0.x + b0.speedX, y := b0.y + b0.speedY }
  let r1 := cavityTransition g b1 now
  let r2 := cavityExpiry r1.1 r1.2 now
  let g2 := r2.1
  let b3 := r2.2
  let b4 := if b3.x ≤ b3.radius ∨ b3.x ≥ g2.canvasWidth - b3.radius then
      { b3 with speedX := -b3.speedX }
    else b3
  let b5 := if b4.y ≤ b4.radius then { b4 with speedY := -b4.speedY } else b4
  if b5.y ≥ g2.canvasHeight - b5.radius then
    ({ g2 with
        cavityBalls := eraseS g2.cavityBalls b5.id
        cavityTimers := eraseA g2.cavityTimers b5.id
        originalSpeeds := eraseA g2.originalSpeeds b5.id }, b5, false)
  else (g2, b5, true)

/-- The reverse-index loop of updateBalls: the ball at the largest index is
processed first.  Returns the shared state, the surviving balls in order,
and every processed ball object (for the primary-alias sync). -/
def updateBallsLoop (now : ℚ) :
    KnockoffArcade → List KABall → KnockoffArcade × List KABall × List KABall
  | g, [] => (g, [], [])
  | g, b :: rest =>
    let r := updateBallsLoop now g rest
    let s := updateBallStep r.1 b now
    (s.1, if s.2.2 then s.2.1 :: r.2.1 else r.2.1, s.2.1 :: r.2.2)

/-- Refresh the primary-ball snapshot from the processed ball objects
(JS aliasing: this.ball is the same object as its list entry). -/
def syncPrimary (g : KnockoffArcade) (processed : List KABall) :
    KnockoffArcade :=
  match processed.find? (fun b => b.id == g.ball.id) with
  | some b => { g with ball := b }
  | none => g

/-- KnockoffArcade.updateBalls: the per-ball loop followed by the
all-balls-lost bookkeeping (life loss, game over or respawn). -/
def updateBalls (g : KnockoffArcade) (now : ℚ) (randPos : Bool) :
    KnockoffArcade :=
  let r := updateBallsLoop now g g.balls
  let g1 := syncPrimary { r.1 with balls := r.2.1 } r.2.2
  if g1.balls.length = 0 then
    let g2 := { g1 with lives := g1.lives - 1 }
    if g2.lives ≤ 0 then { g2 with gameState := .gameOver }
    else resetBall g2 randPos
  else g1

/-- KnockoffArcade.updatePaddle: keyboard-held movement with the edge
guards. -/
def updatePaddle (g : KnockoffArcade) : KnockoffArcade :=
  let g1 := if g.keyLeft ∧ g.paddle.x > 0 then
      { g with paddle := { g.paddle with x := g.paddle.x - g.paddle.speed } }
    else g
  if g1.keyRight ∧ g1.paddle.x < g1.canvasWidth - g1.paddle.width then
    { g1 with paddle := { g1.paddle with x := g1.paddle.x + g1.paddle.speed } }
  else g1

/-- The reverse-index loop of updatePowerUps: each pickup falls by 2, is
discarded off screen, and is applied and consumed on paddle overlap. -/
def updatePowerUpsLoop (now : ℚ) :
    KnockoffArcade → List FallingPowerUp →
      KnockoffArcade × List FallingPowerUp
  | g, [] => (g, [])
  | g, p :: rest =>
    let r := updatePowerUpsLoop now g rest
    let g1 := r.1
    let p1 := { p with y := p.y + 2 }
    if p1.y > g1.canvasHeight then (g1, r.2)
    else if p1.x < g1.paddle.x + g1.paddle.width ∧
        p1.x + p1.width > g1.paddle.x ∧
        p1.y < g1.paddle.y + g1.paddle.height ∧
        p1.y + p1.height > g1.paddle.y then
      let ga := applyPowerUp g1 p1.type now
      ({ ga with score := ga.score + 250 }, r.2)
    else (g1, p1 :: r.2)

/-- KnockoffArcade.updatePowerUps. -/
def updatePowerUps (g : KnockoffArcade) (now : ℚ) : KnockoffArcade :=
  let r := updatePowerUpsLoop now g g.powerUps
  { r.1 with powerUps := r.2 }

/-- The body of checkCollisions for the ball with the given id: the paddle
bounce followed by the first-impact brick scan. -/
def checkBallCollisions (g : KnockoffArcade) (bid : ℕ) (now : ℚ)
    (roll : Bool × Fin 5) : KnockoffArcade × Bool :=
  match g.balls.find? (fun b => b.id == bid) with
  | none => (g, false)
  | some b0 =>
    let g1 :=
      if b0.y + b0.radius ≥ g.paddle.y ∧ b0.x ≥ g.paddle.x ∧
          b0.x ≤ g.paddle.x + g.paddle.width ∧ b0.speedY > 0 then
        let hitPos := (b0.x - (g.paddle.x + g.paddle.width / 2)) /
          (g.paddle.width / 2)
        mapBallId g bid (fun b =>
          { b with speedX := hitPos * 5, speedY := -|b.speedY| })
      else g
    match g1.balls.find? (fun b => b.id == bid) with
    | none => (g1, false)
    | some b1 =>
      match g1.bricks.findIdx? (fun k =>
          k.visible && decide (b1.x ≥ k.x) && decide (b1.x ≤ k.x + k.width) &&
            decide (b1.y ≥ k.y) && decide (b1.y ≤ k.y + k.height)) with
      | some idx => (hitBrick g1 idx bid now roll.1 roll.2, true)
      | none => (g1, false)

/-- The for-of loop of checkCollisions, threading the per-hit random draws
by hit index. -/
def checkCollisionsLoop (now : ℚ) (rolls : ℕ → Bool × Fin 5) :
    KnockoffArcade → ℕ → List ℕ → KnockoffArcade
  | g, _, [] => g
  | g, hits, bid :: rest =>
    let r := checkBallCollisions g bid now (rolls hits)
    checkCollisionsLoop now rolls r.1 (if r.2 then hits + 1 else hits) rest

/-- KnockoffArcade.checkCollisions. -/
def checkCollisions (g : KnockoffArcade) (now : ℚ)
    (rolls : ℕ → Bool × Fin 5) : KnockoffArcade :=
  checkCollisionsLoop now rolls g 0 (g.balls.map (fun b => b.id))

/-- KnockoffArcade.update: the per-frame pipeline, gated on the playing
state.  updateParticles and updateUI only touch render state and are
identities here. -/
def update (g : KnockoffArcade) (now : ℚ) (randPos : Bool)
    (rolls : ℕ → Bool × Fin 5) : KnockoffArcade :=
  if g.gameState = .playing then
    checkGameState
      (checkCollisions (updatePowerUps (updateBalls (updatePaddle g) now randPos) now)
        now rolls)
      randPos
  else g

end KnockoffArcade

/-- A 2D vector as used by the entity classes (Vector2D). -/
structure Vector2D where
  x : ℚ
  y : ℚ
deriving DecidableEq

/-- The GameConfig.POWERUPS.TYPES string constants of the entity classes,
as a closed enumeration. -/
inductive PowerUpType where
  | multiBall
  | widePaddle
  | laser
  | shield
  | slowBall
  | fastBall
  | pierce
  | magnetic
  | explosive
  | timeFreeze
deriving DecidableEq

/-- A trail point of the Ball entity. -/
structure TrailPoint where
  x : ℚ
  y : ℚ
  time : ℚ
  life : ℚ
deriving DecidableEq

/-- The Ball entity class (components/Ball.js). -/
structure Ball where
  position : Vector2D
  velocity : Vector2D
  radius : ℚ
  powerUps : List (PowerUpType × ℚ)
  trails : List TrailPoint
  maxTrails : ℕ
  glowEffect : Bool
  energyLevel : ℚ
  lastTrailTime : ℚ
  trailInterval : ℚ
deriving DecidableEq

/-- The object returned by Ball.serialize (position and velocity are the
plain toObject copies). -/
structure SerializedBall where
  position : Vector2D
  velocity : Vector2D
  radius : ℚ
  powerUps : List (PowerUpType × ℚ)
  energyLevel : ℚ
deriving DecidableEq

/-- JS falsy-or on numbers (data.energyLevel || 1.0): a numeric value is
falsy exactly when it is 0 (NaN is outside the rational model). -/
def jsOrNum (v d : ℚ) : ℚ :=
  if v = 0 then d else v

namespace Ball

/-- GameConfig.PHYSICS.BALL_SPEED. -/
def BALL_SPEED : ℚ := 3

/-- Ball.serialize. -/
def serialize (b : Ball) : SerializedBall :=
  { position := b.position
    velocity := b.velocity
    radius := b.radius
    powerUps := b.powerUps
    energyLevel := b.energyLevel }

/-- Ball.deserialize.  The JS guard (data.powerUps || emptyObject) always
takes data.powerUps for serializer output, because an object is truthy;
the numeric guard (data.energyLevel || 1.0) falls back on the falsy 0. -/
def deserialize (b : Ball) (data : SerializedBall) : Ball :=
  { b with
      position := { x := data.position.x, y := data.position.y }
      velocity := { x := data.velocity.x, y := data.velocity.y }
      radius := data.radius
      powerUps := data.powerUps
      energyLevel := jsOrNum data.energyLevel 1 }

/-- Ball private handleBoundaryCollisions: clamp and reflect on the left,
right and top walls; the bottom is left to the game logic. -/
def handleBoundaryCollisions (b : Ball) (boundsWidth : ℚ) : Ball :=
  let b1 :=
    if b.position.x - b.radius ≤ 0 then
      { b with
          position := { b.position with x := b.radius }
          velocity := { b.velocity with x := |b.velocity.x| } }
    else if b.position.x + b.radius ≥ boundsWidth then
      { b with
          position := { b.position with x := boundsWidth - b.radius }
          velocity := { b.velocity with x := -|b.velocity.x| } }
    else b
  if b1.position.y - b1.radius ≤ 0 then
    { b1 with
        position := { b1.position with y := b1.radius }
        velocity := { b1.velocity with y := |b1.velocity.y| } }
  else b1

/-- Ball private updatePowerUps: drop entries whose expiry has passed,
clearing the glow flag when an expired pierce is removed. -/
def updateBallPowerUps (b : Ball) (now : ℚ) : Ball :=
  { b with
      powerUps := b.powerUps.filter (fun p => decide (now < p.2))
      glowEffect :=
        if b.powerUps.any (fun p => p.1 == PowerUpType.pierce &&
            decide (p.2 ≤ now)) then
          false
        else b.glowEffect }

/-- Ball private updateTrails: append a trail point at most once per trail
interval, cap the buffer, age the points and drop the dead ones. -/
def updateTrails (b : Ball) (now : ℚ) : Ball :=
  let b1 :=
    if now - b.lastTrailTime > b.trailInterval then
      let trails := b.trails ++
        [{ x := b.position.x, y := b.position.y, time := now, life := 1 }]
      { b with
          trails := if trails.length > b.maxTrails then trails.drop 1
                    else trails
          lastTrailTime := now }
    else b
  let aged := b1.trails.map (fun t =>
    { t with life := max 0 (1 - (now - t.time) / 500) })
  { b1 with trails := aged.filter (fun t => decide (0 < t.life)) }

/-- Ball private updateVisualEffects: energyLevel follows the speed ratio.
sqrtA stands for Math.sqrt, which has no exact rational counterpart; it
only feeds this render field. -/
def updateVisualEffects (b : Ball) (sqrtA : ℚ → ℚ) : Ball :=
  { b with
      energyLevel :=
        min 2 (sqrtA (b.velocity.x ^ 2 + b.velocity.y ^ 2) / BALL_SPEED) }

/-- Ball.update: position integration, boundary collisions, power-up
expiry, trail maintenance and the energy recompute, in source order. -/
def update (b : Ball) (deltaTime : ℚ) (boundsWidth : ℚ) (now : ℚ)
    (sqrtA : ℚ → ℚ) : Ball :=
  let b1 := { b with position :=
    { x := b.position.x + b.velocity.x * deltaTime
      y := b.position.y + b.velocity.y * deltaTime } }
  let b2 := handleBoundaryCollisions b1 boundsWidth
  let b3 := updateBallPowerUps b2 now
  let b4 := updateTrails b3 now
  updateVisualEffects b4 sqrtA

end Ball

/-- A glow-effect record pushed by Paddle.applyPowerUp. -/
structure GlowEffect where
  type : PowerUpType
  startTime : ℚ
  duration : ℚ
deriving DecidableEq

/-- The Paddle entity class (components/Paddle.js). -/
structure Paddle where
  position : Vector2D
  velocity : Vector2D
  width : ℚ
  height : ℚ
  baseWidth : ℚ
  speed : ℚ
  powerUps : List (PowerUpType × ℚ)
  aiEnabled : Bool
  aiStrength : ℚ
  targetX : ℚ
  magneticRange : ℚ
  magneticStrength : ℚ
  glowEffects : List GlowEffect
deriving DecidableEq

namespace Paddle

/-- Paddle.moveLeft: a manual command, ignored while AI assist is on. -/
def moveLeft (p : Paddle) (deltaTime : ℚ) : Paddle :=
  if p.aiEnabled then p
  else { p with velocity := { p.velocity with x := -p.speed } }

/-- Paddle.moveRight: a manual command, ignored while AI assist is on. -/
def moveRight (p : Paddle) (deltaTime : ℚ) : Paddle :=
  if p.aiEnabled then p
  else { p with velocity := { p.velocity with x := p.speed } }

/-- Paddle.stop: a manual command, ignored while AI assist is on. -/
def stop (p : Paddle) : Paddle :=
  if p.aiEnabled then p
  else { p with velocity := { p.velocity with x := 0 } }

/-- Paddle.disableAI: turns AI assist off and zeroes the x velocity. -/
def disableAI (p : Paddle) : Paddle :=
  { p with
      aiEnabled := false
      velocity := { p.velocity with x := 0 } }

/-- Paddle.applyPowerUp: records the expiry, applies the immediate width
or magnet effect, and pushes a glow record.  WIDE scales from baseWidth,
not from the current width. -/
def applyPowerUp (p : Paddle) (t : PowerUpType) (duration : ℚ) (now : ℚ) :
    Paddle :=
  let p1 := { p with powerUps := setA p.powerUps t (now + duration) }
  let p2 :=
    match t with
    | .widePaddle => { p1 with width := p1.baseWidth * 1.5 }
    | .magnetic => { p1 with magneticRange := 100, magneticStrength := 2 }
    | _ => p1
  { p2 with glowEffects := p2.glowEffects ++
      [{ type := t, startTime := now, duration := duration }] }

/-- Paddle.removePowerUp: deletes the entry and undoes the width or
magnet effect. -/
def removePowerUp (p : Paddle) (t : PowerUpType) : Paddle :=
  let p1 := { p with powerUps := eraseA p.powerUps t }
  match t with
  | .widePaddle => { p1 with width := p1.baseWidth }
  | .magnetic => { p1 with magneticRange := 0, magneticStrength := 0 }
  | _ => p1

end Paddle

/-- The AudioManager state relevant to background-music bookkeeping.
sources lists every created buffer source by id, true while playing;
currentMusicSource tracks the at-most-one active music source and
currentMusic the non-null currentMusic object. -/
structure AudioManager where
  sources : List Bool
  currentMusicSource : Option ℕ
  currentMusic : Bool
  isInitialized : Bool
  isMuted : Bool
  userHasInteracted : Bool
  hasPlayedFirstTrack : Bool
  musicFilesReady : Bool
  currentTrackIndex : ℕ
deriving DecidableEq

namespace AudioManager

/-- AudioBufferSourceNode.stop: throws on a source that is not playing. -/
def sourceStop (l : List Bool) (i : ℕ) : Except Unit (List Bool) :=
  match l.get? i with
  | some true => .ok (l.set i false)
  | some false => .error ()
  | none => .error ()

/-- AudioManager.stopCurrentMusic: stops the tracked source if any, with
the stop exception caught and swallowed, then clears the tracking
reference and the currentMusic object. -/
def stopCurrentMusic (a : AudioManager) : AudioManager :=
  match a.currentMusicSource with
  | none => { a with currentMusic := false }
  | some i =>
    let sources :=
      match sourceStop a.sources i with
      | .ok l => l
      | .error _ => a.sources
    { a with
        sources := sources
        currentMusicSource := none
        currentMusic := false }

/-- The success path of AudioManager.playNextAudioTrack: after the guard,
stop any current source, then create, track and start the new source. -/
def playNextAudioTrack (a : AudioManager) : AudioManager :=
  if ¬ a.isInitialized ∨ a.isMuted ∨ ¬ a.currentMusic then a
  else
    let a1 := stopCurrentMusic a
    { a1 with
        sources := a1.sources ++ [true]
        currentMusicSource := some a1.sources.length
        hasPlayedFirstTrack := true }

/-- AudioManager.startBackgroundMusic (success path of the on-demand
initialization): mark the interaction, initialize, set up the playlist
once, stop any current music, set the currentMusic object and play. -/
def startBackgroundMusic (a : AudioManager) : AudioManager :=
  let a0 := { a with
    userHasInteracted := true
    isInitialized := true
    musicFilesReady := true
    currentTrackIndex := if a.musicFilesReady then a.currentTrackIndex else 0 }
  let a1 := stopCurrentMusic a0
  let a2 := { a1 with currentMusic := true }
  playNextAudioTrack a2

end AudioManager

/-! Concrete example objects used by the witnesses and counterexamples. -/

/-- A drop-roll oracle that never drops a pickup. -/
def exRolls : ℕ → Bool × Fin 5 := fun _ => (false, (0 : Fin 5))

/-- A visible brick placed at the right edge, away from the example ball
columns. -/
def exBrick : KABrick :=
  { x := 700, y := 105, width := 75, height := 20, visible := true, hits := 1,
    colorRow := 0 }

/-- A paddle placed just below the cavity boundary, centered under x 300. -/
def exPaddle : KAPaddle :=
  { x := 240, y := 100, width := 120, height := 15, speed := 8 }

/-- A ball inside the cavity moving straight down. -/
def c3Ball : KABall :=
  { id := 0, x := 300, y := 55, radius := 10, speedX := 0, speedY := 54,
    spike := none }

/-- An ordinary in-cavity state: ball 0 is in the cavity set only, with
its original speed recorded and no grace timer. -/
def c3Start : KnockoffArcade :=
  { gameState := .playing, score := 0, lives := 10, level := 1, combo := 0,
    multiplier := 1, balls := [c3Ball], ball := c3Ball, bricks := [exBrick],
    powerUps := [], cavityBalls := [0], cavityTimers := [],
    originalSpeeds := [(0, (0, -30))], paddle := exPaddle,
    canvasWidth := 800, canvasHeight := 800, keyLeft := false,
    keyRight := false, nextId := 1 }

/-- Ball 0 after the frame-A move: it has left the cavity. -/
def c3BallA : KABall :=
  { id := 0, x := 300, y := 109, radius := 10, speedX := 0, speedY := 54,
    spike := none }

/-- Shared state after the frame-A leave transition: grace timer armed. -/
def c3StateA : KnockoffArcade :=
  { gameState := .playing, score := 0, lives := 10, level := 1, combo := 0,
    multiplier := 1, balls := [c3Ball], ball := c3Ball, bricks := [exBrick],
    powerUps := [], cavityBalls := [], cavityTimers := [(0, 5000)],
    originalSpeeds := [(0, (0, -30))], paddle := exPaddle,
    canvasWidth := 800, canvasHeight := 800, keyLeft := false,
    keyRight := false, nextId := 1 }

/-- Frame-A state after updateBalls (timer armed, ball moved out). -/
def c3MidA : KnockoffArcade :=
  { c3StateA with balls := [c3BallA], ball := c3BallA }

/-- Ball 0 after the frame-A paddle bounce: heading back up. -/
def c3BallA2 : KABall :=
  { id := 0, x := 300, y := 109, radius := 10, speedX := 0, speedY := -54,
    spike := none }

/-- Frame-A final state. -/
def c3EndA : KnockoffArcade :=
  { c3StateA with balls := [c3BallA2], ball := c3BallA2 }

/-- Ball 0 after re-entering the cavity during its grace period: boosted
again on top of the earlier boost. -/
def c3BallB : KABall :=
  { id := 0, x := 300, y := 55, radius := 10, speedX := 0,
    speedY := -486/5, spike := none }

/-- Frame-B final state: ball 0 is in the cavity set while its grace
timer entry is still present, and its recorded original speed has been
overwritten with the already-boosted speed. -/
def c3EndB : KnockoffArcade :=
  { c3StateA with
      balls := [c3BallB]
      ball := c3BallB
      cavityBalls := [0]
      score := 50
      originalSpeeds := [(0, (0, -54))] }

/-- A level-3 state whose only brick has just been destroyed. -/
def exC1 : KnockoffArcade :=
  { gameState := .playing, score := 0, lives := 10, level := 3, combo := 17,
    multiplier := 4, balls := [c3Ball], ball := c3Ball,
    bricks := [{ exBrick with visible := false }],
    powerUps := [], cavityBalls := [], cavityTimers := [],
    originalSpeeds := [], paddle := exPaddle,
    canvasWidth := 800, canvasHeight := 800, keyLeft := false,
    keyRight := false, nextId := 1 }

/-- A ball resting on the example brick for a direct hit. -/
def exC2Ball : KABall :=
  { id := 0, x := 710, y := 110, radius := 10, speedX := 1, speedY := 2,
    spike := none }

/-- A combo-25 state about to score its 26th consecutive brick. -/
def exC2 : KnockoffArcade :=
  { gameState := .playing, score := 0, lives := 10, level := 1, combo := 25,
    multiplier := 5, balls := [exC2Ball], ball := exC2Ball,
    bricks := [exBrick], powerUps := [], cavityBalls := [],
    cavityTimers := [], originalSpeeds := [], paddle := exPaddle,
    canvasWidth := 800, canvasHeight := 800, keyLeft := false,
    keyRight := false, nextId := 1 }

/-- The ball for the cavity restore scenario witness. -/
def c4Ball : KABall :=
  { id := 0, x := 300, y := 100, radius := 10, speedX := 0, speedY := -40,
    spike := none }

/-- A normal state for the cavity restore scenario witness. -/
def c4Start : KnockoffArcade :=
  { gameState := .playing, score := 0, lives := 10, level := 1, combo := 0,
    multiplier := 1, balls := [c4Ball], ball := c4Ball, bricks := [exBrick],
    powerUps := [], cavityBalls := [], cavityTimers := [],
    originalSpeeds := [], paddle := { exPaddle with y := 750 },
    canvasWidth := 800, canvasHeight := 800, keyLeft := false,
    keyRight := false, nextId := 1 }

/-- A normal ball just below the cavity boundary moving down into it. -/
def c4Ball2 : KABall :=
  { id := 0, x := 300, y := 50, radius := 10, speedX := 0, speedY := 20,
    spike := none }

/-- A normal state for the three-frame cavity restore scenario. -/
def c4Start2 : KnockoffArcade :=
  { c4Start with balls := [c4Ball2], ball := c4Ball2 }

/-- Five active balls for the multi-ball cap scenario. -/
def ex9Balls : List KABall :=
  [{ id := 0, x := 300, y := 400, radius := 10, speedX := 2, speedY := -2,
     spike := none },
   { id := 1, x := 310, y := 410, radius := 10, speedX := -2, speedY := -2,
     spike := none },
   { id := 2, x := 320, y := 420, radius := 10, speedX := 2, speedY := 2,
     spike := none },
   { id := 3, x := 330, y := 430, radius := 10, speedX := -2, speedY := 2,
     spike := none },
   { id := 4, x := 340, y := 440, radius := 10, speedX := 1, speedY := -1,
     spike := none }]

/-- A state already at the five-ball cap. -/
def ex9 : KnockoffArcade :=
  { gameState := .playing, score := 0, lives := 10, level := 1, combo := 0,
    multiplier := 1, balls := ex9Balls,
    ball := { id := 0, x := 300, y := 400, radius := 10, speedX := 2,
              speedY := -2, spike := none },
    bricks := [exBrick], powerUps := [], cavityBalls := [],
    cavityTimers := [], originalSpeeds := [], paddle := exPaddle,
    canvasWidth := 800, canvasHeight := 800, keyLeft := false,
    keyRight := false, nextId := 5 }

/-- An entity ball whose energy level sits at the falsy boundary 0. -/
def exBall5 : Ball :=
  { position := { x := 123, y := 45 }, velocity := { x := 3, y := -4 },
    radius := 8, powerUps := [(PowerUpType.pierce, 99999)],
    trails := [], maxTrails := 5, glowEffect := true, energyLevel := 0,
    lastTrailTime := 0, trailInterval := 16 }

/-- An entity ball with ordinary field values. -/
def exBall5b : Ball :=
  { position := { x := -7/2, y := 200 }, velocity := { x := 5, y := 12 },
    radius := 8, powerUps := [(PowerUpType.fastBall, 1234)],
    trails := [], maxTrails := 5, glowEffect := false, energyLevel := 13/10,
    lastTrailTime := 0, trailInterval := 16 }

/-- An entity ball past the left wall moving further left. -/
def exBall6 : Ball :=
  { position := { x := -5, y := 300 }, velocity := { x := -2, y := 1 },
    radius := 8, powerUps := [], trails := [], maxTrails := 5,
    glowEffect := false, energyLevel := 1, lastTrailTime := 0,
    trailInterval := 16 }

/-- An entity paddle with AI assist off. -/
def exPad : Paddle :=
  { position := { x := 350, y := 560 }, velocity := { x := 0, y := 0 },
    width := 100, height := 15, baseWidth := 100, speed := 8,
    powerUps := [], aiEnabled := false, aiStrength := 1/2, targetX := 350,
    magneticRange := 0, magneticStrength := 0, glowEffects := [] }

/-- An entity paddle with AI assist on and a nonzero velocity command. -/
def exPad10 : Paddle :=
  { exPad with aiEnabled := true, velocity := { x := 8, y := 0 } }

/-- An audio state with one playing source, tracked as current. -/
def exAudio : AudioManager :=
  { sources := [true], currentMusicSource := some 0, currentMusic := true,
    isInitialized := true, isMuted := false, userHasInteracted := true,
    hasPlayedFirstTrack := true, musicFilesReady := true,
    currentTrackIndex := 2 }

/-- An audio state whose tracked source has already stopped by itself. -/
def exAudioStopped : AudioManager :=
  { sources := [false], currentMusicSource := some 0, currentMusic := true,
    isInitialized := true, isMuted := false, userHasInteracted := true,
    hasPlayedFirstTrack := true, musicFilesReady := true,
    currentTrackIndex := 2 }

/-- Frame-B shared state right after the re-entry transition. -/
def c3StateB : KnockoffArcade :=
  { c3StateA with
      cavityBalls := [0]
      score := 50
      originalSpeeds := [(0, (0, -54))]
      balls := [c3BallA2]
      ball := c3BallA2 }

/-- Each ball is in at most one cavity state: cavity-set membership and a
grace timer are mutually exclusive. -/
def CavityStateInv (g : KnockoffArcade) : Prop :=
  ∀ k : ℕ, k ∈ g.cavityBalls → lookupA g.cavityTimers k = none

/-- No ball with a still-running grace timer re-enters the cavity region
on this frame. -/
def NoGraceReentry (g : KnockoffArcade) (now : ℚ) : Prop :=
  ∀ b ∈ g.balls, b.y + b.speedY < 80 → b.id ∉ g.cavityBalls →
    ∀ t, lookupA g.cavityTimers b.id = some t → now > t

/-! End of definitions; theorems follow. -/

namespace KnockoffArcade

theorem update_playing (g : KnockoffArcade) (now : ℚ) (r : Bool)
    (rolls : ℕ → Bool × Fin 5) (h : g.gameState = .playing) :
    update g now r rolls =
      checkGameState
        (checkCollisions (updatePowerUps (updateBalls (updatePaddle g) now r) now)
          now rolls) r := by
  simp [update, h]

theorem updatePaddle_nokeys (g : KnockoffArcade) (hL : g.keyLeft = false)
    (hR : g.keyRight = false) : updatePaddle g = g := by
  simp [updatePaddle, hL, hR]

theorem updatePowerUps_nil (g : KnockoffArcade) (now : ℚ)
    (h : g.powerUps = []) : updatePowerUps g now = g := by
  rw [updatePowerUps, h]
  show { g with powerUps := ([] : List FallingPowerUp) } = g
  rw [← h]

theorem syncPrimary_balls (g : KnockoffArcade) (l : List KABall) :
    (syncPrimary g l).balls = g.balls := by
  rw [syncPrimary]
  cases l.find? (fun b => b.id == g.ball.id) <;> rfl

theorem syncPrimary_single_match (g : KnockoffArcade) (b : KABall)
    (h : (b.id == g.ball.id) = true) :
    syncPrimary g [b] = { g with ball := b } := by
  simp [syncPrimary, List.find?, h]

theorem updateBallsLoop_nil (g : KnockoffArcade) (now : ℚ) :
    updateBallsLoop now g [] = (g, [], []) := rfl

theorem updateBallsLoop_single (g : KnockoffArcade) (now : ℚ) (b : KABall)
    (g2 : KnockoffArcade) (b2 : KABall) (keep : Bool)
    (hstep : updateBallStep g b now = (g2, b2, keep)) :
    updateBallsLoop now g [b] =
      (g2, if keep then [b2] else [], [b2]) := by
  show (let r := updateBallsLoop now g []
        let s := updateBallStep r.1 b now
        (s.1, if s.2.2 then s.2.1 :: r.2.1 else r.2.1, s.2.1 :: r.2.2)) =
      (g2, if keep then [b2] else [], [b2])
  rw [updateBallsLoop_nil]
  simp only []
  rw [hstep]

theorem updateBalls_single (g : KnockoffArcade) (now : ℚ) (r : Bool)
    (b : KABall) (g2 : KnockoffArcade) (b2 : KABall)
    (hballs : g.balls = [b])
    (hstep : updateBallStep g b now = (g2, b2, true)) :
    updateBalls g now r = syncPrimary { g2 with balls := [b2] } [b2] := by
  show (let r0 := updateBallsLoop now g g.balls
        let g1 := syncPrimary { r0.1 with balls := r0.2.1 } r0.2.2
        if g1.balls.length = 0 then
          let gx := { g1 with lives := g1.lives - 1 }
          if gx.lives ≤ 0 then { gx with gameState := .gameOver }
          else resetBall gx r
        else g1) = _
  rw [hballs, updateBallsLoop_single g now b g2 b2 true hstep]
  simp only [syncPrimary_balls, if_true]
  rw [if_neg]
  simp

theorem checkCollisionsLoop_nil (g : KnockoffArcade) (now : ℚ)
    (rolls : ℕ → Bool × Fin 5) (hits : ℕ) :
    checkCollisionsLoop now rolls g hits [] = g := rfl

theorem checkCollisions_single (g : KnockoffArcade) (now : ℚ)
    (rolls : ℕ → Bool × Fin 5) (b : KABall) (hballs : g.balls = [b]) :
    checkCollisions g now rolls =
      (checkBallCollisions g b.id now (rolls 0)).1 := by
  rw [checkCollisions, hballs]
  show (let r := checkBallCollisions g b.id now (rolls 0)
        checkCollisionsLoop now rolls r.1 (if r.2 then 0 + 1 else 0) []) = _
  simp only [checkCollisionsLoop_nil]

theorem checkGameState_notClear (g : KnockoffArcade) (r : Bool)
    (h : (g.bricks.filter (fun b => b.visible)).length ≠ 0) :
    checkGameState g r = g := by
  simp [checkGameState, h]

end KnockoffArcade

namespace KnockoffArcade

theorem cavityTransition_enter (g : KnockoffArcade) (b : KABall) (now : ℚ)
    (hIn : b.y < 80) (hWas : b.id ∉ g.cavityBalls) :
    cavityTransition g b now =
      ({ g with
          cavityBalls := insertS g.cavityBalls b.id
          score := g.score + 50
          originalSpeeds := setA g.originalSpeeds b.id (b.speedX, b.speedY) },
       { b with speedX := b.speedX * 1.8, speedY := b.speedY * 1.8 }) := by
  simp only [cavityTransition]
  rw [if_pos ⟨hIn, hWas⟩]

theorem cavityTransition_leave (g : KnockoffArcade) (b : KABall) (now : ℚ)
    (hIn : ¬ b.y < 80) (hWas : b.id ∈ g.cavityBalls) :
    cavityTransition g b now =
      ({ g with
          cavityBalls := eraseS g.cavityBalls b.id
          cavityTimers := setA g.cavityTimers b.id (now + 5000) }, b) := by
  simp only [cavityTransition]
  rw [if_neg (fun h => hIn h.1), if_pos ⟨hIn, hWas⟩]

theorem cavityTransition_stay (g : KnockoffArcade) (b : KABall) (now : ℚ)
    (h : b.y < 80 ↔ b.id ∈ g.cavityBalls) :
    cavityTransition g b now = (g, b) := by
  simp only [cavityTransition]
  rw [if_neg (fun hc => hc.2 (h.mp hc.1)), if_neg (fun hc => hc.1 (h.mpr hc.2))]

theorem cavityExpiry_none (g : KnockoffArcade) (b : KABall) (now : ℚ)
    (h : lookupA g.cavityTimers b.id = none) :
    cavityExpiry g b now = (g, b) := by
  simp only [cavityExpiry, h]

theorem cavityExpiry_wait (g : KnockoffArcade) (b : KABall) (now t : ℚ)
    (h : lookupA g.cavityTimers b.id = some t) (hw : ¬ now > t) :
    cavityExpiry g b now = (g, b) := by
  simp only [cavityExpiry, h]
  rw [if_neg hw]

theorem cavityExpiry_restore (g : KnockoffArcade) (b : KABall) (now t : ℚ)
    (sp : ℚ × ℚ) (h : lookupA g.cavityTimers b.id = some t) (hw : now > t)
    (ho : lookupA g.originalSpeeds b.id = some sp) :
    cavityExpiry g b now =
      ({ g with
          cavityTimers := eraseA g.cavityTimers b.id
          originalSpeeds := eraseA g.originalSpeeds b.id },
       { b with speedX := sp.1, speedY := sp.2 }) := by
  simp only [cavityExpiry, h]
  rw [if_pos hw]
  simp only [ho]

theorem updateBallStep_noWalls (g : KnockoffArcade) (b : KABall) (now : ℚ)
    (g1 : KnockoffArcade) (b2 : KABall) (g2 : KnockoffArcade) (b3 : KABall)
    (hct : cavityTransition g
      { b with x := b.x + b.speedX, y := b.y + b.speedY } now = (g1, b2))
    (hce : cavityExpiry g1 b2 now = (g2, b3))
    (hxl : ¬ b3.x ≤ b3.radius)
    (hxr : ¬ b3.x ≥ g2.canvasWidth - b3.radius)
    (htop : ¬ b3.y ≤ b3.radius)
    (hbot : ¬ b3.y ≥ g2.canvasHeight - b3.radius) :
    updateBallStep g b now = (g2, b3, true) := by
  have hb4 : (if b3.x ≤ b3.radius ∨ b3.x ≥ g2.canvasWidth - b3.radius then
      { b3 with speedX := -b3.speedX } else b3) = b3 :=
    if_neg (fun h => h.elim hxl hxr)
  have hb5 : (if b3.y ≤ b3.radius then
      { b3 with speedY := -b3.speedY } else b3) = b3 := if_neg htop
  simp only [updateBallStep, hct, hce, hb4, hb5]
  rw [if_neg hbot]

theorem updateBallStep_topWall (g : KnockoffArcade) (b : KABall) (now : ℚ)
    (g1 : KnockoffArcade) (b2 : KABall) (g2 : KnockoffArcade) (b3 : KABall)
    (hct : cavityTransition g
      { b with x := b.x + b.speedX, y := b.y + b.speedY } now = (g1, b2))
    (hce : cavityExpiry g1 b2 now = (g2, b3))
    (hxl : ¬ b3.x ≤ b3.radius)
    (hxr : ¬ b3.x ≥ g2.canvasWidth - b3.radius)
    (htop : b3.y ≤ b3.radius)
    (hbot : ¬ b3.y ≥ g2.canvasHeight - b3.radius) :
    updateBallStep g b now = (g2, { b3 with speedY := -b3.speedY }, true) := by
  have hb4 : (if b3.x ≤ b3.radius ∨ b3.x ≥ g2.canvasWidth - b3.radius then
      { b3 with speedX := -b3.speedX } else b3) = b3 :=
    if_neg (fun h => h.elim hxl hxr)
  simp only [updateBallStep, hct, hce, hb4]
  rw [if_pos htop]
  simp only []
  rw [if_neg hbot]

end KnockoffArcade

namespace KnockoffArcade

set_option maxHeartbeats 1000000 in
theorem frameA : update c3Start 0 false exRolls = c3EndA := by
  have hmove : ({ c3Ball with x := c3Ball.x + c3Ball.speedX, y := c3Ball.y + c3Ball.speedY } : KABall) = c3BallA := by
    norm_num [c3Ball, c3BallA]
  have hct : cavityTransition c3Start { c3Ball with x := c3Ball.x + c3Ball.speedX, y := c3Ball.y + c3Ball.speedY } 0 = (c3StateA, c3BallA) := by
    rw [hmove]
    rw [cavityTransition_leave c3Start c3BallA 0 (by norm_num [c3BallA])
      (by decide)]
    norm_num [c3Start, c3StateA, c3BallA, eraseS, setA, eraseA]
  have hce : cavityExpiry c3StateA c3BallA 0 = (c3StateA, c3BallA) := by
    apply cavityExpiry_wait _ _ _ 5000
    · norm_num [c3StateA, c3BallA, lookupA]
    · norm_num
  have hstep : updateBallStep c3Start c3Ball 0 = (c3StateA, c3BallA, true) := by
    apply updateBallStep_noWalls _ _ _ c3StateA c3BallA _ _ hct hce
    all_goals norm_num [c3StateA, c3BallA]
  have hub : updateBalls c3Start 0 false =
      syncPrimary { c3StateA with balls := [c3BallA] } [c3BallA] :=
    updateBalls_single _ _ _ _ _ _ rfl hstep
  have hsync : syncPrimary { c3StateA with balls := [c3BallA] } [c3BallA] = c3MidA := by
    rw [syncPrimary_single_match { c3StateA with balls := [c3BallA] } c3BallA rfl]
    rfl
  have hcol : checkBallCollisions c3MidA c3BallA.id 0 (exRolls 0) = (c3EndA, false) := by
    norm_num [checkBallCollisions, c3MidA, c3StateA, c3Ball, c3BallA, c3BallA2,
      c3EndA, exPaddle, exBrick, exRolls, mapBallId, List.find?, List.findIdx?]
  rw [update_playing _ _ _ _ rfl]
  rw [updatePaddle_nokeys _ rfl rfl, hub, hsync]
  rw [updatePowerUps_nil _ _ rfl]
  rw [checkCollisions_single _ _ _ c3BallA rfl, hcol]
  apply checkGameState_notClear
  norm_num [c3EndA, c3StateA, exBrick]

set_option maxHeartbeats 1000000 in
theorem frameB : update c3EndA 0 false exRolls = c3EndB := by
  have hmove : ({ c3BallA2 with x := c3BallA2.x + c3BallA2.speedX, y := c3BallA2.y + c3BallA2.speedY } : KABall) = { c3BallA2 with y := 55 } := by
    norm_num [c3BallA2]
  have hct : cavityTransition c3EndA { c3BallA2 with x := c3BallA2.x + c3BallA2.speedX, y := c3BallA2.y + c3BallA2.speedY } 0 = (c3StateB, c3BallB) := by
    rw [hmove]
    rw [cavityTransition_enter c3EndA { c3BallA2 with y := 55 } 0
      (by norm_num [c3BallA2]) (by decide)]
    norm_num [c3EndA, c3StateA, c3StateB, c3BallA2, c3BallB, setA, eraseA,
      insertS]
  have hce : cavityExpiry c3StateB c3BallB 0 = (c3StateB, c3BallB) := by
    apply cavityExpiry_wait _ _ _ 5000
    · norm_num [c3StateB, c3StateA, c3BallB, lookupA]
    · norm_num
  have hstep : updateBallStep c3EndA c3BallA2 0 = (c3StateB, c3BallB, true) := by
    apply updateBallStep_noWalls _ _ _ c3StateB c3BallB _ _ hct hce
    all_goals norm_num [c3StateB, c3StateA, c3BallB]
  have hub : updateBalls c3EndA 0 false =
      syncPrimary { c3StateB with balls := [c3BallB] } [c3BallB] :=
    updateBalls_single _ _ _ _ _ _ rfl hstep
  have hsync : syncPrimary { c3StateB with balls := [c3BallB] } [c3BallB] = c3EndB := by
    rw [syncPrimary_single_match { c3StateB with balls := [c3BallB] } c3BallB rfl]
    rfl
  have hcol : checkBallCollisions c3EndB c3BallB.id 0 (exRolls 0) = (c3EndB, false) := by
    norm_num [checkBallCollisions, c3EndB, c3StateA, c3BallB, exPaddle,
      exBrick, exRolls, List.find?, List.findIdx?]
  rw [update_playing _ _ _ _ rfl]
  rw [updatePaddle_nokeys _ rfl rfl, hub, hsync]
  rw [updatePowerUps_nil _ _ rfl]
  rw [checkCollisions_single _ _ _ c3BallB rfl, hcol]
  apply checkGameState_notClear
  norm_num [c3EndB, c3StateA, exBrick]

end KnockoffArcade

namespace KnockoffArcade

theorem cavityExpiry_restore_noOrig (g : KnockoffArcade) (b : KABall)
    (now t : ℚ) (h : lookupA g.cavityTimers b.id = some t) (hw : now > t)
    (ho : lookupA g.originalSpeeds b.id = none) :
    cavityExpiry g b now =
      ({ g with cavityTimers := eraseA g.cavityTimers b.id }, b) := by
  simp only [cavityExpiry, h]
  rw [if_pos hw]
  simp only [ho]

theorem cavityTransition_id (g : KnockoffArcade) (b : KABall) (now : ℚ) :
    (cavityTransition g b now).2.id = b.id := by
  rw [cavityTransition]
  split_ifs <;> rfl

theorem cavityTransition_balls_enter (g : KnockoffArcade) (b : KABall)
    (now : ℚ) (hIn : b.y < 80) (hWas : b.id ∉ g.cavityBalls) :
    (cavityTransition g b now).1.cavityBalls = insertS g.cavityBalls b.id := by
  rw [cavityTransition_enter g b now hIn hWas]

theorem cavityTransition_timers_enter (g : KnockoffArcade) (b : KABall)
    (now : ℚ) (hIn : b.y < 80) (hWas : b.id ∉ g.cavityBalls) :
    (cavityTransition g b now).1.cavityTimers = g.cavityTimers := by
  rw [cavityTransition_enter g b now hIn hWas]

theorem cavityTransition_balls_leave (g : KnockoffArcade) (b : KABall)
    (now : ℚ) (hIn : ¬ b.y < 80) (hWas : b.id ∈ g.cavityBalls) :
    (cavityTransition g b now).1.cavityBalls = eraseS g.cavityBalls b.id := by
  rw [cavityTransition_leave g b now hIn hWas]

theorem cavityTransition_timers_leave (g : KnockoffArcade) (b : KABall)
    (now : ℚ) (hIn : ¬ b.y < 80) (hWas : b.id ∈ g.cavityBalls) :
    (cavityTransition g b now).1.cavityTimers =
      setA g.cavityTimers b.id (now + 5000) := by
  rw [cavityTransition_leave g b now hIn hWas]

theorem cavityTransition_fst_stay (g : KnockoffArcade) (b : KABall)
    (now : ℚ) (h : b.y < 80 ↔ b.id ∈ g.cavityBalls) :
    (cavityTransition g b now).1 = g := by
  rw [cavityTransition_stay g b now h]

theorem cavityTransition_canvasHeight (g : KnockoffArcade) (b : KABall)
    (now : ℚ) : (cavityTransition g b now).1.canvasHeight = g.canvasHeight := by
  rw [cavityTransition]
  split_ifs <;> rfl

theorem cavityTransition_canvasWidth (g : KnockoffArcade) (b : KABall)
    (now : ℚ) : (cavityTransition g b now).1.canvasWidth = g.canvasWidth := by
  rw [cavityTransition]
  split_ifs <;> rfl

theorem cavityExpiry_balls (g : KnockoffArcade) (b : KABall) (now : ℚ) :
    (cavityExpiry g b now).1.cavityBalls = g.cavityBalls := by
  rw [cavityExpiry]
  rcases lookupA g.cavityTimers b.id with _ | t
  · rfl
  · simp only []
    split_ifs
    · rcases lookupA ({ g with
        cavityTimers := eraseA g.cavityTimers b.id } :
          KnockoffArcade).originalSpeeds b.id with _ | sp <;> rfl
    · rfl

theorem cavityExpiry_timers_none (g : KnockoffArcade) (b : KABall)
    (now : ℚ) (h : lookupA g.cavityTimers b.id = none) :
    (cavityExpiry g b now).1.cavityTimers = g.cavityTimers := by
  rw [cavityExpiry_none g b now h]

theorem cavityExpiry_timers_wait (g : KnockoffArcade) (b : KABall)
    (now t : ℚ) (h : lookupA g.cavityTimers b.id = some t)
    (hw : ¬ now > t) :
    (cavityExpiry g b now).1.cavityTimers = g.cavityTimers := by
  rw [cavityExpiry_wait g b now t h hw]

theorem cavityExpiry_timers_expired (g : KnockoffArcade) (b : KABall)
    (now t : ℚ) (h : lookupA g.cavityTimers b.id = some t) (hw : now > t) :
    (cavityExpiry g b now).1.cavityTimers = eraseA g.cavityTimers b.id := by
  rcases ho : lookupA g.originalSpeeds b.id with _ | sp
  · rw [cavityExpiry_restore_noOrig g b now t h hw ho]
  · rw [cavityExpiry_restore g b now t sp h hw ho]

end KnockoffArcade

namespace KnockoffArcade

theorem cavityStage_inv (g : KnockoffArcade) (mb : KABall) (now : ℚ)
    (hInv : CavityStateInv g)
    (hmb : mb.y < 80 → mb.id ∉ g.cavityBalls →
      ∀ t, lookupA g.cavityTimers mb.id = some t → now > t) :
    CavityStateInv
      (cavityExpiry (cavityTransition g mb now).1
        (cavityTransition g mb now).2 now).1 ∧
    (∀ k, k ≠ mb.id →
      lookupA (cavityExpiry (cavityTransition g mb now).1
          (cavityTransition g mb now).2 now).1.cavityTimers k =
        lookupA g.cavityTimers k ∧
      (k ∈ (cavityExpiry (cavityTransition g mb now).1
          (cavityTransition g mb now).2 now).1.cavityBalls ↔
        k ∈ g.cavityBalls)) := by
  have hballs := cavityExpiry_balls (cavityTransition g mb now).1
    (cavityTransition g mb now).2 now
  have hid := cavityTransition_id g mb now
  by_cases hIn : mb.y < 80
  · by_cases hWas : mb.id ∈ g.cavityBalls
    · -- still inside the cavity: nothing changes
      have hfst := cavityTransition_fst_stay g mb now (iff_of_true hIn hWas)
      have hlook : lookupA (cavityTransition g mb now).1.cavityTimers
          (cavityTransition g mb now).2.id = none := by
        rw [hfst, hid]
        exact hInv mb.id hWas
      have htim2 : (cavityExpiry (cavityTransition g mb now).1
          (cavityTransition g mb now).2 now).1.cavityTimers =
          g.cavityTimers := by
        rw [cavityExpiry_timers_none _ _ now hlook, hfst]
      have hballs2 : (cavityExpiry (cavityTransition g mb now).1
          (cavityTransition g mb now).2 now).1.cavityBalls =
          g.cavityBalls := by
        rw [hballs, hfst]
      refine ⟨fun k hk => ?_, fun k _ => ⟨?_, ?_⟩⟩
      · rw [htim2]; exact hInv k (hballs2 ▸ hk)
      · rw [htim2]
      · rw [hballs2]
    · -- entering the cavity
      have hbe := cavityTransition_balls_enter g mb now hIn hWas
      have hte := cavityTransition_timers_enter g mb now hIn hWas
      have hballs2 : (cavityExpiry (cavityTransition g mb now).1
          (cavityTransition g mb now).2 now).1.cavityBalls =
          insertS g.cavityBalls mb.id := by
        rw [hballs, hbe]
      rcases htl : lookupA g.cavityTimers mb.id with _ | t
      · have hlook : lookupA (cavityTransition g mb now).1.cavityTimers
            (cavityTransition g mb now).2.id = none := by
          rw [hte, hid]; exact htl
        have htim2 : (cavityExpiry (cavityTransition g mb now).1
            (cavityTransition g mb now).2 now).1.cavityTimers =
            g.cavityTimers := by
          rw [cavityExpiry_timers_none _ _ now hlook, hte]
        refine ⟨fun k hk => ?_, fun k hk => ⟨?_, ?_⟩⟩
        · rw [htim2]
          rcases (mem_insertS_iff g.cavityBalls mb.id k).mp (hballs2 ▸ hk)
            with he | hm
          · rw [he]; exact htl
          · exact hInv k hm
        · rw [htim2]
        · rw [hballs2, mem_insertS_iff]
          exact ⟨fun h => h.elim (fun he => absurd he hk) id, Or.inr⟩
      · have hexp : now > t := hmb hIn hWas t htl
        have hlook : lookupA (cavityTransition g mb now).1.cavityTimers
            (cavityTransition g mb now).2.id = some t := by
          rw [hte, hid]; exact htl
        have htim2 : (cavityExpiry (cavityTransition g mb now).1
            (cavityTransition g mb now).2 now).1.cavityTimers =
            eraseA g.cavityTimers mb.id := by
          rw [cavityExpiry_timers_expired _ _ now t hlook hexp, hte, hid]
        refine ⟨fun k hk => ?_, fun k hk => ⟨?_, ?_⟩⟩
        · rw [htim2]
          rcases (mem_insertS_iff g.cavityBalls mb.id k).mp (hballs2 ▸ hk)
            with he | hm
          · rw [he]; exact lookupA_eraseA_self g.cavityTimers mb.id
          · by_cases hke : k = mb.id
            · rw [hke]; exact lookupA_eraseA_self g.cavityTimers mb.id
            · rw [lookupA_eraseA_ne g.cavityTimers mb.id k hke]
              exact hInv k hm
        · rw [htim2]; exact lookupA_eraseA_ne g.cavityTimers mb.id k hk
        · rw [hballs2, mem_insertS_iff]
          exact ⟨fun h => h.elim (fun he => absurd he hk) id, Or.inr⟩
  · by_cases hWas : mb.id ∈ g.cavityBalls
    · -- leaving the cavity: the grace timer starts
      have hbl := cavityTransition_balls_leave g mb now hIn hWas
      have htll := cavityTransition_timers_leave g mb now hIn hWas
      have hlook : lookupA (cavityTransition g mb now).1.cavityTimers
          (cavityTransition g mb now).2.id = some (now + 5000) := by
        rw [htll, hid]
        exact lookupA_setA_self g.cavityTimers mb.id (now + 5000)
      have htim2 : (cavityExpiry (cavityTransition g mb now).1
          (cavityTransition g mb now).2 now).1.cavityTimers =
          setA g.cavityTimers mb.id (now + 5000) := by
        rw [cavityExpiry_timers_wait _ _ now (now + 5000) hlook (by linarith),
          htll]
      have hballs2 : (cavityExpiry (cavityTransition g mb now).1
          (cavityTransition g mb now).2 now).1.cavityBalls =
          eraseS g.cavityBalls mb.id := by
        rw [hballs, hbl]
      refine ⟨fun k hk => ?_, fun k hk => ⟨?_, ?_⟩⟩
      · rw [htim2]
        obtain ⟨hm, hne⟩ := (mem_eraseS_iff g.cavityBalls mb.id k).mp
          (hballs2 ▸ hk)
        rw [lookupA_setA_ne g.cavityTimers mb.id k (now + 5000) hne]
        exact hInv k hm
      · rw [htim2]
        exact lookupA_setA_ne g.cavityTimers mb.id k (now + 5000) hk
      · rw [hballs2, mem_eraseS_iff]
        exact ⟨fun h => h.1, fun h => ⟨h, hk⟩⟩
    · -- outside the cavity, not a member: possibly a timer expiry
      have hfst := cavityTransition_fst_stay g mb now (iff_of_false hIn hWas)
      have hballs2 : (cavityExpiry (cavityTransition g mb now).1
          (cavityTransition g mb now).2 now).1.cavityBalls =
          g.cavityBalls := by
        rw [hballs, hfst]
      rcases htl : lookupA g.cavityTimers mb.id with _ | t
      · have hlook : lookupA (cavityTransition g mb now).1.cavityTimers
            (cavityTransition g mb now).2.id = none := by
          rw [hfst, hid]; exact htl
        have htim2 : (cavityExpiry (cavityTransition g mb now).1
            (cavityTransition g mb now).2 now).1.cavityTimers =
            g.cavityTimers := by
          rw [cavityExpiry_timers_none _ _ now hlook, hfst]
        refine ⟨fun k hk => ?_, fun k _ => ⟨?_, ?_⟩⟩
        · rw [htim2]; exact hInv k (hballs2 ▸ hk)
        · rw [htim2]
        · rw [hballs2]
      · by_cases hexp : now > t
        · have hlook : lookupA (cavityTransition g mb now).1.cavityTimers
              (cavityTransition g mb now).2.id = some t := by
            rw [hfst, hid]; exact htl
          have htim2 : (cavityExpiry (cavityTransition g mb now).1
              (cavityTransition g mb now).2 now).1.cavityTimers =
              eraseA g.cavityTimers mb.id := by
            rw [cavityExpiry_timers_expired _ _ now t hlook hexp, hfst, hid]
          refine ⟨fun k hk => ?_, fun k hk => ⟨?_, ?_⟩⟩
          · rw [htim2]
            have hkm : k ∈ g.cavityBalls := hballs2 ▸ hk
            have hkne : k ≠ mb.id := fun he => hWas (he ▸ hkm)
            rw [lookupA_eraseA_ne g.cavityTimers mb.id k hkne]
            exact hInv k hkm
          · rw [htim2]
            exact lookupA_eraseA_ne g.cavityTimers mb.id k hk
          · rw [hballs2]
        · have hlook : lookupA (cavityTransition g mb now).1.cavityTimers
              (cavityTransition g mb now).2.id = some t := by
            rw [hfst, hid]; exact htl
          have htim2 : (cavityExpiry (cavityTransition g mb now).1
              (cavityTransition g mb now).2 now).1.cavityTimers =
              g.cavityTimers := by
            rw [cavityExpiry_timers_wait _ _ now t hlook hexp, hfst]
          refine ⟨fun k hk => ?_, fun k _ => ⟨?_, ?_⟩⟩
          · rw [htim2]; exact hInv k (hballs2 ▸ hk)
          · rw [htim2]
          · rw [hballs2]

end KnockoffArcade

namespace KnockoffArcade

theorem cavityExpiry_id (g : KnockoffArcade) (b : KABall) (now : ℚ) :
    (cavityExpiry g b now).2.id = b.id := by
  rw [cavityExpiry]
  rcases lookupA g.cavityTimers b.id with _ | t
  · rfl
  · simp only []
    split_ifs
    · rcases lookupA ({ g with
        cavityTimers := eraseA g.cavityTimers b.id } :
          KnockoffArcade).originalSpeeds b.id with _ | sp <;> rfl
    · rfl

theorem inv_of_fields (g g' : KnockoffArcade)
    (hb : g'.cavityBalls = g.cavityBalls)
    (ht : g'.cavityTimers = g.cavityTimers)
    (h : CavityStateInv g) : CavityStateInv g' := by
  intro k hk
  rw [ht]
  exact h k (hb ▸ hk)

theorem updateBallStep_fst_cases (g : KnockoffArcade) (b : KABall)
    (now : ℚ) :
    (updateBallStep g b now).1 =
      (cavityExpiry
        (cavityTransition g { b with x := b.x + b.speedX, y := b.y + b.speedY } now).1
        (cavityTransition g { b with x := b.x + b.speedX, y := b.y + b.speedY } now).2
        now).1 ∨
    (updateBallStep g b now).1 =
      { (cavityExpiry
          (cavityTransition g { b with x := b.x + b.speedX, y := b.y + b.speedY } now).1
          (cavityTransition g { b with x := b.x + b.speedX, y := b.y + b.speedY } now).2
          now).1 with
        cavityBalls := eraseS
          (cavityExpiry
            (cavityTransition g { b with x := b.x + b.speedX, y := b.y + b.speedY } now).1
            (cavityTransition g { b with x := b.x + b.speedX, y := b.y + b.speedY } now).2
            now).1.cavityBalls b.id
        cavityTimers := eraseA
          (cavityExpiry
            (cavityTransition g { b with x := b.x + b.speedX, y := b.y + b.speedY } now).1
            (cavityTransition g { b with x := b.x + b.speedX, y := b.y + b.speedY } now).2
            now).1.cavityTimers b.id
        originalSpeeds := eraseA
          (cavityExpiry
            (cavityTransition g { b with x := b.x + b.speedX, y := b.y + b.speedY } now).1
            (cavityTransition g { b with x := b.x + b.speedX, y := b.y + b.speedY } now).2
            now).1.originalSpeeds b.id } := by
  have hid5 : (cavityExpiry
      (cavityTransition g { b with x := b.x + b.speedX, y := b.y + b.speedY } now).1
      (cavityTransition g { b with x := b.x + b.speedX, y := b.y + b.speedY } now).2
      now).2.id = b.id := by
    rw [cavityExpiry_id, cavityTransition_id]
  simp only [updateBallStep]
  split_ifs with h1 h2 h3 <;>
    first
      | exact Or.inl rfl
      | (refine Or.inr ?_; simp only []; rw [hid5])

end KnockoffArcade

namespace KnockoffArcade

theorem updateBallStep_inv (g : KnockoffArcade) (b : KABall) (now : ℚ)
    (hInv : CavityStateInv g)
    (hb : b.y + b.speedY < 80 → b.id ∉ g.cavityBalls →
      ∀ t, lookupA g.cavityTimers b.id = some t → now > t) :
    CavityStateInv (updateBallStep g b now).1 ∧
    (∀ k, k ≠ b.id →
      lookupA (updateBallStep g b now).1.cavityTimers k =
        lookupA g.cavityTimers k ∧
      (k ∈ (updateBallStep g b now).1.cavityBalls ↔ k ∈ g.cavityBalls)) := by
  have hmb : ({ b with x := b.x + b.speedX, y := b.y + b.speedY } : KABall).y
      < 80 →
      ({ b with x := b.x + b.speedX, y := b.y + b.speedY } : KABall).id ∉
        g.cavityBalls →
      ∀ t, lookupA g.cavityTimers
        ({ b with x := b.x + b.speedX, y := b.y + b.speedY } : KABall).id =
        some t → now > t := hb
  obtain ⟨hEinv, hEpre⟩ := cavityStage_inv g
    { b with x := b.x + b.speedX, y := b.y + b.speedY } now hInv hmb
  rcases updateBallStep_fst_cases g b now with hc | hc
  · rw [hc]
    exact ⟨hEinv, fun k hk => hEpre k hk⟩
  · rw [hc]
    refine ⟨fun k hk => ?_, fun k hk => ?_⟩
    · obtain ⟨hm, hne⟩ := (mem_eraseS_iff _ b.id k).mp hk
      show lookupA (eraseA _ b.id) k = none
      rw [lookupA_eraseA_ne _ b.id k hne]
      exact hEinv k hm
    · obtain ⟨ht, hmem⟩ := hEpre k hk
      constructor
      · show lookupA (eraseA _ b.id) k = _
        rw [lookupA_eraseA_ne _ b.id k hk]
        exact ht
      · show k ∈ eraseS _ b.id ↔ _
        rw [mem_eraseS_iff]
        exact ⟨fun h => hmem.mp h.1, fun h => ⟨hmem.mpr h, hk⟩⟩

theorem updateBallsLoop_fst_cons (g : KnockoffArcade) (now : ℚ)
    (b : KABall) (rest : List KABall) :
    (updateBallsLoop now g (b :: rest)).1 =
      (updateBallStep (updateBallsLoop now g rest).1 b now).1 := rfl

theorem updateBallsLoop_inv (now : ℚ) :
    ∀ (l : List KABall) (g : KnockoffArcade), CavityStateInv g →
    (∀ b ∈ l, b.y + b.speedY < 80 → b.id ∉ g.cavityBalls →
      ∀ t, lookupA g.cavityTimers b.id = some t → now > t) →
    (l.map (fun b => b.id)).Nodup →
    CavityStateInv (updateBallsLoop now g l).1 ∧
    (∀ k, k ∉ l.map (fun b => b.id) →
      lookupA (updateBallsLoop now g l).1.cavityTimers k =
        lookupA g.cavityTimers k ∧
      (k ∈ (updateBallsLoop now g l).1.cavityBalls ↔ k ∈ g.cavityBalls))
  | [], g, hInv, _, _ => ⟨hInv, fun _ _ => ⟨rfl, Iff.rfl⟩⟩
  | b :: rest, g, hInv, hb, hnd => by
    have hndr : (rest.map (fun b => b.id)).Nodup :=
      (List.nodup_cons.mp hnd).2
    have hbid : b.id ∉ rest.map (fun b => b.id) :=
      (List.nodup_cons.mp hnd).1
    obtain ⟨hInv1, hpre1⟩ := updateBallsLoop_inv now rest g hInv
      (fun x hx => hb x (List.mem_cons_of_mem b hx)) hndr
    obtain ⟨htpre, hmpre⟩ := hpre1 b.id hbid
    have hb1 : b.y + b.speedY < 80 →
        b.id ∉ (updateBallsLoop now g rest).1.cavityBalls →
        ∀ t, lookupA (updateBallsLoop now g rest).1.cavityTimers b.id =
          some t → now > t := by
      intro hy hm t ht
      exact hb b (List.mem_cons_self b rest) hy (fun hmem => hm (hmpre.mpr hmem))
        t (htpre ▸ ht)
    obtain ⟨hInv2, hpre2⟩ := updateBallStep_inv (updateBallsLoop now g rest).1
      b now hInv1 hb1
    rw [updateBallsLoop_fst_cons]
    refine ⟨hInv2, fun k hk => ?_⟩
    have hkb : k ≠ b.id := by
      intro he
      apply hk
      rw [List.map_cons, he]
      exact List.mem_cons_self b.id (rest.map (fun b => b.id))
    have hkr : k ∉ rest.map (fun b => b.id) := by
      intro hm
      exact hk (by rw [List.map_cons]; exact List.mem_cons_of_mem _ hm)
    obtain ⟨ht2, hm2⟩ := hpre2 k hkb
    obtain ⟨ht1, hm1⟩ := hpre1 k hkr
    exact ⟨ht2.trans ht1, hm2.trans hm1⟩

end KnockoffArcade

namespace KnockoffArcade

theorem syncPrimary_cavity (g : KnockoffArcade) (l : List KABall) :
    (syncPrimary g l).cavityBalls = g.cavityBalls ∧
    (syncPrimary g l).cavityTimers = g.cavityTimers := by
  rw [syncPrimary]
  cases l.find? (fun b => b.id == g.ball.id) <;> exact ⟨rfl, rfl⟩

theorem resetBall_cavity (g : KnockoffArcade) (r : Bool) :
    (resetBall g r).cavityBalls = g.cavityBalls ∧
    (resetBall g r).cavityTimers = g.cavityTimers := ⟨rfl, rfl⟩

theorem updatePaddle_cavity (g : KnockoffArcade) :
    (updatePaddle g).cavityBalls = g.cavityBalls ∧
    (updatePaddle g).cavityTimers = g.cavityTimers ∧
    (updatePaddle g).balls = g.balls := by
  rw [updatePaddle]
  split_ifs <;> exact ⟨rfl, rfl, rfl⟩

theorem mapAllBalls_cavity (g : KnockoffArcade) (f : KABall → KABall) :
    (mapAllBalls g f).cavityBalls = g.cavityBalls ∧
    (mapAllBalls g f).cavityTimers = g.cavityTimers := by
  rw [mapAllBalls]
  exact ⟨rfl, rfl⟩

theorem mapBallId_cavity (g : KnockoffArcade) (bid : ℕ) (f : KABall → KABall) :
    (mapBallId g bid f).cavityBalls = g.cavityBalls ∧
    (mapBallId g bid f).cavityTimers = g.cavityTimers := ⟨rfl, rfl⟩

theorem applyPowerUp_cavity (g : KnockoffArcade) (t : WesternPowerUpType)
    (now : ℚ) :
    (applyPowerUp g t now).cavityBalls = g.cavityBalls ∧
    (applyPowerUp g t now).cavityTimers = g.cavityTimers := by
  cases t <;> rw [applyPowerUp]
  · split_ifs <;> exact ⟨rfl, rfl⟩
  · exact ⟨rfl, rfl⟩
  · exact mapAllBalls_cavity g _
  · exact mapAllBalls_cavity g _
  · exact mapAllBalls_cavity g _

theorem createPowerUp_cavity (g : KnockoffArcade) (x y : ℚ) (tr : Fin 5) :
    (createPowerUp g x y tr).cavityBalls = g.cavityBalls ∧
    (createPowerUp g x y tr).cavityTimers = g.cavityTimers := ⟨rfl, rfl⟩

theorem processBrickHit_cavity (oi bi : ℕ) (dr : Bool) (tr : Fin 5)
    (g : KnockoffArcade) (i : ℕ) :
    (processBrickHit oi bi dr tr g i).cavityBalls = g.cavityBalls ∧
    (processBrickHit oi bi dr tr g i).cavityTimers = g.cavityTimers := by
  rw [processBrickHit]
  cases g.bricks.get? i
  · exact ⟨rfl, rfl⟩
  · simp only []
    split_ifs <;>
      first
        | exact createPowerUp_cavity _ _ _ _
        | exact ⟨rfl, rfl⟩

theorem foldl_processBrickHit_cavity (oi bi : ℕ) (dr : Bool) (tr : Fin 5) :
    ∀ (l : List ℕ) (g : KnockoffArcade),
    (l.foldl (processBrickHit oi bi dr tr) g).cavityBalls = g.cavityBalls ∧
    (l.foldl (processBrickHit oi bi dr tr) g).cavityTimers = g.cavityTimers
  | [], g => ⟨rfl, rfl⟩
  | i :: rest, g => by
    rw [List.foldl_cons]
    obtain ⟨h1, h2⟩ := foldl_processBrickHit_cavity oi bi dr tr rest
      (processBrickHit oi bi dr tr g i)
    obtain ⟨h3, h4⟩ := processBrickHit_cavity oi bi dr tr g i
    exact ⟨h1.trans h3, h2.trans h4⟩

theorem hitBrick_cavity (g : KnockoffArcade) (bi bid : ℕ) (now : ℚ)
    (dr : Bool) (tr : Fin 5) :
    (hitBrick g bi bid now dr tr).cavityBalls = g.cavityBalls ∧
    (hitBrick g bi bid now dr tr).cavityTimers = g.cavityTimers := by
  rw [hitBrick]
  cases g.bricks.get? bi
  · exact ⟨rfl, rfl⟩
  · cases g.balls.find? (fun b => b.id == bid)
    · exact ⟨rfl, rfl⟩
    · simp only []
      split_ifs
      · obtain ⟨h1, h2⟩ := foldl_processBrickHit_cavity bi bid dr tr _ g
        exact ⟨h1, h2⟩
      · obtain ⟨h1, h2⟩ := foldl_processBrickHit_cavity bi bid dr tr _ g
        constructor
        · exact ((mapBallId_cavity _ bid _).1).trans h1
        · exact ((mapBallId_cavity _ bid _).2).trans h2

theorem checkBallCollisions_cavity (g : KnockoffArcade) (bid : ℕ)
    (now : ℚ) (roll : Bool × Fin 5) :
    (checkBallCollisions g bid now roll).1.cavityBalls = g.cavityBalls ∧
    (checkBallCollisions g bid now roll).1.cavityTimers = g.cavityTimers := by
  rw [checkBallCollisions]
  cases g.balls.find? (fun b => b.id == bid)
  · exact ⟨rfl, rfl⟩
  · simp only []
    split_ifs
    · cases (mapBallId g bid _).balls.find? (fun b => b.id == bid)
      · simp only []
        exact mapBallId_cavity g bid _
      · simp only []
        rcases (mapBallId g bid _).bricks.findIdx? _ with _ | j
        · simp only []
          exact mapBallId_cavity g bid _
        · simp only []
          obtain ⟨h1, h2⟩ := hitBrick_cavity (mapBallId g bid _) j bid now
            roll.1 roll.2
          obtain ⟨h3, h4⟩ := mapBallId_cavity g bid _
          exact ⟨h1.trans h3, h2.trans h4⟩
    · cases g.balls.find? (fun b => b.id == bid)
      · exact ⟨rfl, rfl⟩
      · simp only []
        rcases g.bricks.findIdx? _ with _ | j
        · exact ⟨rfl, rfl⟩
        · simp only []
          exact hitBrick_cavity g j bid now roll.1 roll.2

end KnockoffArcade

namespace KnockoffArcade

theorem checkCollisionsLoop_cavity (now : ℚ) (rolls : ℕ → Bool × Fin 5) :
    ∀ (l : List ℕ) (g : KnockoffArcade) (hits : ℕ),
    (checkCollisionsLoop now rolls g hits l).cavityBalls = g.cavityBalls ∧
    (checkCollisionsLoop now rolls g hits l).cavityTimers = g.cavityTimers
  | [], _, _ => ⟨rfl, rfl⟩
  | bid :: rest, g, hits => by
    show ((checkCollisionsLoop now rolls
      (checkBallCollisions g bid now (rolls hits)).1
      (if (checkBallCollisions g bid now (rolls hits)).2 then hits + 1
       else hits) rest).cavityBalls = g.cavityBalls ∧ _)
    obtain ⟨h1, h2⟩ := checkCollisionsLoop_cavity now rolls rest
      (checkBallCollisions g bid now (rolls hits)).1
      (if (checkBallCollisions g bid now (rolls hits)).2 then hits + 1
       else hits)
    obtain ⟨h3, h4⟩ := checkBallCollisions_cavity g bid now (rolls hits)
    exact ⟨h1.trans h3, h2.trans h4⟩

theorem checkCollisions_cavity (g : KnockoffArcade) (now : ℚ)
    (rolls : ℕ → Bool × Fin 5) :
    (checkCollisions g now rolls).cavityBalls = g.cavityBalls ∧
    (checkCollisions g now rolls).cavityTimers = g.cavityTimers := by
  rw [checkCollisions]
  exact checkCollisionsLoop_cavity now rolls _ g 0

theorem updatePowerUpsLoop_cons (now : ℚ) (g : KnockoffArcade)
    (p : FallingPowerUp) (rest : List FallingPowerUp) :
    updatePowerUpsLoop now g (p :: rest) =
      (let r := updatePowerUpsLoop now g rest
       let g1 := r.1
       let p1 := { p with y := p.y + 2 }
       if p1.y > g1.canvasHeight then (g1, r.2)
       else if p1.x < g1.paddle.x + g1.paddle.width ∧
           p1.x + p1.width > g1.paddle.x ∧
           p1.y < g1.paddle.y + g1.paddle.height ∧
           p1.y + p1.height > g1.paddle.y then
         let ga := applyPowerUp g1 p1.type now
         ({ ga with score := ga.score + 250 }, r.2)
       else (g1, p1 :: r.2)) := rfl

theorem updatePowerUpsLoop_cavity (now : ℚ) :
    ∀ (l : List FallingPowerUp) (g : KnockoffArcade),
    (updatePowerUpsLoop now g l).1.cavityBalls = g.cavityBalls ∧
    (updatePowerUpsLoop now g l).1.cavityTimers = g.cavityTimers
  | [], _ => ⟨rfl, rfl⟩
  | p :: rest, g => by
    obtain ⟨h1, h2⟩ := updatePowerUpsLoop_cavity now rest g
    rw [updatePowerUpsLoop_cons]
    simp only []
    split_ifs
    · exact ⟨h1, h2⟩
    · obtain ⟨h3, h4⟩ := applyPowerUp_cavity (updatePowerUpsLoop now g rest).1
        ({ p with y := p.y + 2 } : FallingPowerUp).type now
      exact ⟨h3.trans h1, h4.trans h2⟩
    · exact ⟨h1, h2⟩

theorem updatePowerUps_cavity (g : KnockoffArcade) (now : ℚ) :
    (updatePowerUps g now).cavityBalls = g.cavityBalls ∧
    (updatePowerUps g now).cavityTimers = g.cavityTimers := by
  rw [updatePowerUps]
  exact updatePowerUpsLoop_cavity now g.powerUps g

theorem createBricks_cavity (g : KnockoffArcade) :
    (createBricks g).cavityBalls = g.cavityBalls ∧
    (createBricks g).cavityTimers = g.cavityTimers := ⟨rfl, rfl⟩

theorem levelComplete_cavity (g : KnockoffArcade) (r : Bool) :
    (levelComplete g r).cavityBalls = g.cavityBalls ∧
    (levelComplete g r).cavityTimers = g.cavityTimers := by
  rw [levelComplete]
  exact resetBall_cavity _ r

theorem checkGameState_cavity (g : KnockoffArcade) (r : Bool) :
    (checkGameState g r).cavityBalls = g.cavityBalls ∧
    (checkGameState g r).cavityTimers = g.cavityTimers := by
  rw [checkGameState]
  split_ifs
  · exact levelComplete_cavity g r
  · exact ⟨rfl, rfl⟩

theorem updateBalls_inv (g : KnockoffArcade) (now : ℚ) (r : Bool)
    (hInv : CavityStateInv g) (hNR : NoGraceReentry g now)
    (hnd : (g.balls.map (fun b => b.id)).Nodup) :
    CavityStateInv (updateBalls g now r) := by
  obtain ⟨hLinv, _⟩ := updateBallsLoop_inv now g.balls g hInv hNR hnd
  rw [updateBalls]
  simp only []
  obtain ⟨hs1, hs2⟩ := syncPrimary_cavity
    ({ (updateBallsLoop now g g.balls).1 with
       balls := (updateBallsLoop now g g.balls).2.1 } : KnockoffArcade)
    (updateBallsLoop now g g.balls).2.2
  have hsync : CavityStateInv (syncPrimary
      ({ (updateBallsLoop now g g.balls).1 with
         balls := (updateBallsLoop now g g.balls).2.1 } : KnockoffArcade)
      (updateBallsLoop now g g.balls).2.2) :=
    inv_of_fields _ _ hs1 hs2 hLinv
  split_ifs
  · exact hsync
  · obtain ⟨h1, h2⟩ := resetBall_cavity _ r
    exact inv_of_fields _ _ h1 h2 hsync
  · exact hsync

theorem update_cavity_inv (g : KnockoffArcade) (now : ℚ) (r : Bool)
    (rolls : ℕ → Bool × Fin 5) (hInv : CavityStateInv g)
    (hNR : NoGraceReentry g now)
    (hnd : (g.balls.map (fun b => b.id)).Nodup) :
    CavityStateInv (update g now r rolls) := by
  rw [update]
  split_ifs
  · obtain ⟨hp1, hp2, hp3⟩ := updatePaddle_cavity g
    have hInvP : CavityStateInv (updatePaddle g) := inv_of_fields _ _ hp1 hp2 hInv
    have hNRP : NoGraceReentry (updatePaddle g) now := by
      intro b hb hy hm t ht
      rw [hp3] at hb
      rw [hp2] at ht
      rw [hp1] at hm
      exact hNR b hb hy hm t ht
    have hndP : ((updatePaddle g).balls.map (fun b => b.id)).Nodup := by
      rw [hp3]; exact hnd
    have hInvB : CavityStateInv (updateBalls (updatePaddle g) now r) :=
      updateBalls_inv (updatePaddle g) now r hInvP hNRP hndP
    obtain ⟨hu1, hu2⟩ := updatePowerUps_cavity
      (updateBalls (updatePaddle g) now r) now
    have hInvU : CavityStateInv
        (updatePowerUps (updateBalls (updatePaddle g) now r) now) :=
      inv_of_fields _ _ hu1 hu2 hInvB
    obtain ⟨hc1, hc2⟩ := checkCollisions_cavity
      (updatePowerUps (updateBalls (updatePaddle g) now r) now) now rolls
    have hInvC : CavityStateInv (checkCollisions
        (updatePowerUps (updateBalls (updatePaddle g) now r) now) now rolls) :=
      inv_of_fields _ _ hc1 hc2 hInvU
    obtain ⟨hg1, hg2⟩ := checkGameState_cavity (checkCollisions
      (updatePowerUps (updateBalls (updatePaddle g) now r) now) now rolls) r
    exact inv_of_fields _ _ hg1 hg2 hInvC
  · exact hInv

end KnockoffArcade

namespace KnockoffArcade

theorem processBrickHit_combo_mult (oi bi : ℕ) (dr : Bool) (tr : Fin 5)
    (g : KnockoffArcade) (i : ℕ) :
    (processBrickHit oi bi dr tr g i).multiplier = g.multiplier := by
  rw [processBrickHit]
  cases g.bricks.get? i
  · rfl
  · simp only []
    split_ifs <;> rfl

theorem foldl_processBrickHit_mult (oi bi : ℕ) (dr : Bool) (tr : Fin 5) :
    ∀ (l : List ℕ) (g : KnockoffArcade),
    (l.foldl (processBrickHit oi bi dr tr) g).multiplier = g.multiplier
  | [], _ => rfl
  | i :: rest, g => by
    rw [List.foldl_cons]
    exact (foldl_processBrickHit_mult oi bi dr tr rest _).trans
      (processBrickHit_combo_mult oi bi dr tr g i)

theorem hitBrick_mult_eq (g : KnockoffArcade) (bi bid : ℕ) (now : ℚ)
    (dr : Bool) (tr : Fin 5) (brick : KABrick) (ball : KABall)
    (h1 : g.bricks.get? bi = some brick)
    (h2 : g.balls.find? (fun b => b.id == bid) = some ball) :
    (hitBrick g bi bid now dr tr).multiplier =
      recomputeMultiplier (hitBrick g bi bid now dr tr).combo
        g.multiplier := by
  have hm : ∀ (x : KnockoffArcade) (k : ℕ) (f : KABall → KABall),
      (mapBallId x k f).multiplier = x.multiplier := fun _ _ _ => rfl
  have hc : ∀ (x : KnockoffArcade) (k : ℕ) (f : KABall → KABall),
      (mapBallId x k f).combo = x.combo := fun _ _ _ => rfl
  rw [hitBrick, h1, h2]
  simp only []
  split_ifs with hs
  · simp only []
    rw [foldl_processBrickHit_mult]
  · rw [hm, hc]
    simp only []
    rw [foldl_processBrickHit_mult]

end KnockoffArcade

/-- C1 (counterexample): clearing the last brick at level 3 awards 4000
points, not the 3000 the claim states, because the bonus is computed from
the already incremented level. -/
theorem c1_level_bonus_counterexample :
    exC1.level = 3 ∧ exC1.score = 0 ∧
    (exC1.bricks.filter (fun b => b.visible)).length = 0 ∧
    (KnockoffArcade.checkGameState exC1 true).level = 4 ∧
    (KnockoffArcade.checkGameState exC1 true).combo = 0 ∧
    (KnockoffArcade.checkGameState exC1 true).multiplier = 1 ∧
    (KnockoffArcade.checkGameState exC1 true).score = 4000 ∧
    ¬ (KnockoffArcade.checkGameState exC1 true).score = 3000 := by
  decide

/-- C1 (amended): when no visible brick remains, level completion
increments the level to L+1, resets combo to 0 and multiplier to 1, and
awards a bonus of exactly (L+1)*1000 points computed from the already
incremented level (4000 at level 3). -/
theorem c1_level_completion_amended (g : KnockoffArcade) (r : Bool)
    (h : (g.bricks.filter (fun b => b.visible)).length = 0) :
    (KnockoffArcade.checkGameState g r).level = g.level + 1 ∧
    (KnockoffArcade.checkGameState g r).score =
      g.score + (g.level + 1) * 1000 ∧
    (KnockoffArcade.checkGameState g r).combo = 0 ∧
    (KnockoffArcade.checkGameState g r).multiplier = 1 := by
  rw [KnockoffArcade.checkGameState, if_pos h, KnockoffArcade.levelComplete]
  exact ⟨rfl, rfl, rfl, rfl⟩

/-- Witness for the amended C1 theorem at a concrete level-3 state. -/
theorem c1_level_completion_amended_witness :
    (exC1.bricks.filter (fun b => b.visible)).length = 0 ∧
    ((KnockoffArcade.checkGameState exC1 true).level = exC1.level + 1 ∧
     (KnockoffArcade.checkGameState exC1 true).score =
       exC1.score + (exC1.level + 1) * 1000 ∧
     (KnockoffArcade.checkGameState exC1 true).combo = 0 ∧
     (KnockoffArcade.checkGameState exC1 true).multiplier = 1) :=
  ⟨by decide, c1_level_completion_amended exC1 true (by decide)⟩

/-- C2 (counterexample): scoring the 26th consecutive brick yields
multiplier 5, not the 6 the claim table states, because the clamp
min(5, floor(combo/5)+1) applies. -/
theorem c2_multiplier_table_counterexample :
    exC2.combo = 25 ∧
    (KnockoffArcade.hitBrick exC2 0 0 0 false 0).combo = 26 ∧
    (KnockoffArcade.hitBrick exC2 0 0 0 false 0).multiplier = 5 ∧
    ¬ (KnockoffArcade.hitBrick exC2 0 0 0 false 0).multiplier = 6 := by
  decide

/-- C2 (amended): the multiplier recompute after a brick hit follows
min(5, floor(combo/5)+1) once combo exceeds 5 and leaves the multiplier
alone otherwise; on the claim table this gives 1, 1, 2, 3, 4 and then 5
(not 6) at combo 26, with 30 and 100 also clamped to 5. -/
theorem c2_multiplier_amended :
    KnockoffArcade.recomputeMultiplier 0 1 = 1 ∧
    KnockoffArcade.recomputeMultiplier 5 1 = 1 ∧
    KnockoffArcade.recomputeMultiplier 6 1 = 2 ∧
    KnockoffArcade.recomputeMultiplier 10 1 = 3 ∧
    KnockoffArcade.recomputeMultiplier 15 1 = 4 ∧
    KnockoffArcade.recomputeMultiplier 26 1 = 5 ∧
    KnockoffArcade.recomputeMultiplier 30 1 = 5 ∧
    KnockoffArcade.recomputeMultiplier 100 1 = 5 ∧
    (∀ c m : ℕ, 5 < c →
      KnockoffArcade.recomputeMultiplier c m = min 5 (c / 5 + 1)) ∧
    (∀ c m : ℕ, c ≤ 5 → KnockoffArcade.recomputeMultiplier c m = m) ∧
    (∀ (g : KnockoffArcade) (bi bid : ℕ) (now : ℚ) (dr : Bool) (tr : Fin 5)
      (brick : KABrick) (ball : KABall),
      g.bricks.get? bi = some brick →
      g.balls.find? (fun b => b.id == bid) = some ball →
      (KnockoffArcade.hitBrick g bi bid now dr tr).multiplier =
        KnockoffArcade.recomputeMultiplier
          (KnockoffArcade.hitBrick g bi bid now dr tr).combo g.multiplier) := by
  refine ⟨by decide, by decide, by decide, by decide, by decide, by decide,
    by decide, by decide, ?_, ?_, ?_⟩
  · intro c m h
    rw [KnockoffArcade.recomputeMultiplier, if_pos h]
  · intro c m h
    rw [KnockoffArcade.recomputeMultiplier, if_neg (by omega)]
  · intro g bi bid now dr tr brick ball h1 h2
    exact KnockoffArcade.hitBrick_mult_eq g bi bid now dr tr brick ball h1 h2

/-- Witness for the amended C2 theorem: the hit-tied recompute at a
concrete combo-25 state. -/
theorem c2_multiplier_amended_witness :
    exC2.bricks.get? 0 = some exBrick ∧
    exC2.balls.find? (fun b => b.id == 0) = some exC2Ball ∧
    (KnockoffArcade.hitBrick exC2 0 0 0 false 0).multiplier =
      KnockoffArcade.recomputeMultiplier
        (KnockoffArcade.hitBrick exC2 0 0 0 false 0).combo exC2.multiplier :=
  ⟨by decide, by decide,
    c2_multiplier_amended.2.2.2.2.2.2.2.2.2.2 exC2 0 0 0 false 0 exBrick
      exC2Ball (by decide) (by decide)⟩

/-- C9: the multi-ball power-up never pushes the active-ball count past 5;
at the cap the dynamite branch leaves the whole state unchanged. -/
theorem c9_multiball_cap (g : KnockoffArcade) (t : WesternPowerUpType)
    (now : ℚ) (hle : g.balls.length ≤ 5) :
    (KnockoffArcade.applyPowerUp g t now).balls.length ≤ 5 ∧
    (g.balls.length = 5 →
      KnockoffArcade.applyPowerUp g .dynamite now = g) := by
  constructor
  · cases t <;> rw [KnockoffArcade.applyPowerUp]
    · split_ifs with hlt
      · simp only [List.length_append, List.length_cons, List.length_nil]
        omega
      · exact hle
    · exact hle
    · simp only [KnockoffArcade.mapAllBalls, List.length_map]
      exact hle
    · simp only [KnockoffArcade.mapAllBalls, List.length_map]
      exact hle
    · simp only [KnockoffArcade.mapAllBalls, List.length_map]
      exact hle
  · intro h5
    rw [KnockoffArcade.applyPowerUp]
    rw [if_neg (by omega)]

/-- Witness for the multi-ball cap at a concrete five-ball state. -/
theorem c9_multiball_cap_witness :
    ex9.balls.length ≤ 5 ∧
    ((KnockoffArcade.applyPowerUp ex9 .dynamite 0).balls.length ≤ 5 ∧
     (ex9.balls.length = 5 →
       KnockoffArcade.applyPowerUp ex9 .dynamite 0 = ex9)) :=
  ⟨by decide, c9_multiball_cap ex9 .dynamite 0 (by decide)⟩

/-- C10: while AI assist is on, moveLeft, moveRight and stop leave the
paddle completely unchanged; disableAI turns assist off and zeroes the
horizontal velocity while touching nothing else; once assist is off the
three commands set velocity.x to -speed, +speed and 0 respectively. -/
theorem c10_manual_controls (p : Paddle) (dt : ℚ) (h : p.aiEnabled = true) :
    Paddle.moveLeft p dt = p ∧ Paddle.moveRight p dt = p ∧
    Paddle.stop p = p ∧
    Paddle.disableAI p =
      { p with aiEnabled := false
               velocity := { p.velocity with x := 0 } } ∧
    (Paddle.moveLeft (Paddle.disableAI p) dt).velocity.x = -p.speed ∧
    (Paddle.moveRight (Paddle.disableAI p) dt).velocity.x = p.speed ∧
    (Paddle.stop (Paddle.disableAI p)).velocity.x = 0 := by
  refine ⟨?_, ?_, ?_, rfl, rfl, rfl, rfl⟩
  · rw [Paddle.moveLeft, if_pos (by rw [h])]
  · rw [Paddle.moveRight, if_pos (by rw [h])]
  · rw [Paddle.stop, if_pos (by rw [h])]

/-- Witness for the C10 theorem at a concrete AI-enabled paddle. -/
theorem c10_manual_controls_witness :
    exPad10.aiEnabled = true ∧
    (Paddle.moveLeft exPad10 1 = exPad10 ∧
     Paddle.moveRight exPad10 1 = exPad10 ∧
     Paddle.stop exPad10 = exPad10 ∧
     Paddle.disableAI exPad10 =
       { exPad10 with aiEnabled := false
                      velocity := { exPad10.velocity with x := 0 } } ∧
     (Paddle.moveLeft (Paddle.disableAI exPad10) 1).velocity.x =
       -exPad10.speed ∧
     (Paddle.moveRight (Paddle.disableAI exPad10) 1).velocity.x =
       exPad10.speed ∧
     (Paddle.stop (Paddle.disableAI exPad10)).velocity.x = 0) :=
  ⟨rfl, c10_manual_controls exPad10 1 rfl⟩

/-- C5 (counterexample): a ball with energy level exactly 0 does not
survive the serialize then deserialize round trip: the falsy-guard
fallback resets its energy level to 1. -/
theorem c5_energy_roundtrip_counterexample :
    exBall5.energyLevel = 0 ∧
    (Ball.deserialize exBall5 (Ball.serialize exBall5)).energyLevel = 1 ∧
    ¬ (Ball.deserialize exBall5 (Ball.serialize exBall5)).energyLevel =
        exBall5.energyLevel := by
  refine ⟨rfl, rfl, ?_⟩
  intro hcontra
  exact absurd hcontra (by decide)

/-- C5 (amended): serialize then deserialize always restores position,
velocity, radius and power-ups, and restores the whole ball whenever its
energy level is nonzero; the nonzero proviso is needed because the
deserializer replaces a falsy 0 energy level by 1. -/
theorem c5_serialize_roundtrip_amended (b : Ball) :
    (Ball.deserialize b (Ball.serialize b)).position = b.position ∧
    (Ball.deserialize b (Ball.serialize b)).velocity = b.velocity ∧
    (Ball.deserialize b (Ball.serialize b)).radius = b.radius ∧
    (Ball.deserialize b (Ball.serialize b)).powerUps = b.powerUps ∧
    (b.energyLevel ≠ 0 → Ball.deserialize b (Ball.serialize b) = b) := by
  refine ⟨rfl, rfl, rfl, rfl, fun h => ?_⟩
  simp only [Ball.deserialize, Ball.serialize, jsOrNum]
  rw [if_neg h]

/-- Witness for the amended C5 theorem at a ball with nonzero energy. -/
theorem c5_serialize_roundtrip_amended_witness :
    ((Ball.deserialize exBall5b (Ball.serialize exBall5b)).position =
       exBall5b.position ∧
     (Ball.deserialize exBall5b (Ball.serialize exBall5b)).velocity =
       exBall5b.velocity ∧
     (Ball.deserialize exBall5b (Ball.serialize exBall5b)).radius =
       exBall5b.radius ∧
     (Ball.deserialize exBall5b (Ball.serialize exBall5b)).powerUps =
       exBall5b.powerUps ∧
     (exBall5b.energyLevel ≠ 0 →
       Ball.deserialize exBall5b (Ball.serialize exBall5b) = exBall5b)) ∧
    exBall5b.energyLevel ≠ 0 :=
  ⟨c5_serialize_roundtrip_amended exBall5b, by norm_num [exBall5b]⟩

namespace Paddle

theorem applyPowerUp_baseWidth (p : Paddle) (t : PowerUpType) (d now : ℚ) :
    (Paddle.applyPowerUp p t d now).baseWidth = p.baseWidth := by
  cases t <;> rfl

theorem iterate_wide_baseWidth (d now : ℚ) (p : Paddle) : ∀ n : ℕ,
    ((fun q => Paddle.applyPowerUp q .widePaddle d now)^[n] p).baseWidth =
      p.baseWidth
  | 0 => rfl
  | n + 1 => by
    rw [Function.iterate_succ_apply']
    exact (applyPowerUp_baseWidth _ _ d now).trans
      (iterate_wide_baseWidth d now p n)

end Paddle

/-- C7 (counterexample): two whiskey pickups compound the game paddle
width multiplicatively (120 becomes 270 = 120 * 2.25), they do not
re-derive it from a stored base width (which would give 180). -/
theorem c7_whiskey_compounds_counterexample :
    ex9.paddle.width = 120 ∧
    (KnockoffArcade.applyPowerUp
      (KnockoffArcade.applyPowerUp ex9 .whiskey 0) .whiskey 0).paddle.width
      = 270 ∧
    ¬ (KnockoffArcade.applyPowerUp
        (KnockoffArcade.applyPowerUp ex9 .whiskey 0) .whiskey 0).paddle.width
        = 180 := by
  have h1 : (KnockoffArcade.applyPowerUp ex9 .whiskey 0).paddle.width =
      120 * 1.5 := rfl
  have h2 : (KnockoffArcade.applyPowerUp
      (KnockoffArcade.applyPowerUp ex9 .whiskey 0) .whiskey 0).paddle.width =
      120 * 1.5 * 1.5 := by
    show (KnockoffArcade.applyPowerUp ex9 .whiskey 0).paddle.width * 1.5 =
      120 * 1.5 * 1.5
    rw [h1]
  refine ⟨rfl, ?_, ?_⟩
  · rw [h2]; norm_num
  · rw [h2]; norm_num

/-- C7 (amended): the entity-level WIDE_PADDLE power-up is idempotent in
width, always resetting it to baseWidth * 1.5 no matter how many times it
is applied, while the game-level whiskey pickup multiplies the current
paddle width by 1.5 each time and therefore compounds. -/
theorem c7_wide_paddle_amended (p : Paddle) (d now : ℚ) (n : ℕ)
    (g : KnockoffArcade) (hn : 1 ≤ n) :
    ((fun q => Paddle.applyPowerUp q .widePaddle d now)^[n] p).width =
      p.baseWidth * 1.5 ∧
    (KnockoffArcade.applyPowerUp
      (KnockoffArcade.applyPowerUp g .whiskey now) .whiskey now).paddle.width
      = g.paddle.width * 1.5 * 1.5 := by
  constructor
  · obtain ⟨m, rfl⟩ : ∃ m, n = m + 1 := ⟨n - 1, by omega⟩
    rw [Function.iterate_succ_apply']
    show ((fun q => Paddle.applyPowerUp q .widePaddle d now)^[m] p).baseWidth
      * 1.5 = p.baseWidth * 1.5
    rw [Paddle.iterate_wide_baseWidth]
  · rfl

/-- Witness for the amended C7 theorem: three WIDE applications still give
baseWidth * 1.5, while two whiskeys compound on the game paddle. -/
theorem c7_wide_paddle_amended_witness :
    1 ≤ 3 ∧
    (((fun q => Paddle.applyPowerUp q .widePaddle 10000 0)^[3] exPad).width =
       exPad.baseWidth * 1.5 ∧
     (KnockoffArcade.applyPowerUp
       (KnockoffArcade.applyPowerUp ex9 .whiskey 0) .whiskey 0).paddle.width
       = ex9.paddle.width * 1.5 * 1.5) :=
  ⟨by decide, c7_wide_paddle_amended exPad 10000 0 3 ex9 (by decide)⟩

namespace AudioManager

theorem sourceStop_true (l : List Bool) (i : ℕ) (h : l.get? i = some true) :
    sourceStop l i = .ok (l.set i false) := by
  have e : sourceStop l i = match l.get? i with
    | some true => .ok (l.set i false)
    | some false => .error ()
    | none => .error () := rfl
  rw [e, h]

theorem sourceStop_false (l : List Bool) (i : ℕ) (h : l.get? i = some false) :
    sourceStop l i = .error () := by
  have e : sourceStop l i = match l.get? i with
    | some true => .ok (l.set i false)
    | some false => .error ()
    | none => .error () := rfl
  rw [e, h]

theorem stopCurrentMusic_none (x : AudioManager)
    (hc : x.currentMusicSource = none) :
    stopCurrentMusic x = { x with currentMusic := false } := by
  have e : stopCurrentMusic x = match x.currentMusicSource with
    | none => { x with currentMusic := false }
    | some i =>
      { x with
          sources := match sourceStop x.sources i with
            | .ok l => l
            | .error _ => x.sources
          currentMusicSource := none
          currentMusic := false } := rfl
  rw [e, hc]

theorem stopCurrentMusic_some (x : AudioManager) (i : ℕ)
    (hc : x.currentMusicSource = some i)
    (hp : x.sources.get? i = some true) :
    stopCurrentMusic x = { x with
      sources := x.sources.set i false
      currentMusicSource := none
      currentMusic := false } := by
  have e : stopCurrentMusic x = match x.currentMusicSource with
    | none => { x with currentMusic := false }
    | some i =>
      { x with
          sources := match sourceStop x.sources i with
            | .ok l => l
            | .error _ => x.sources
          currentMusicSource := none
          currentMusic := false } := rfl
  rw [e, hc]
  show ({ x with
      sources := match sourceStop x.sources i with
        | .ok l => l
        | .error _ => x.sources
      currentMusicSource := none
      currentMusic := false } : AudioManager) = _
  rw [sourceStop_true x.sources i hp]

theorem stopCurrentMusic_overwrite (x : AudioManager) (i : ℕ)
    (hc : x.currentMusicSource = some i)
    (hp : x.sources.get? i = some false) :
    stopCurrentMusic x = { x with
      currentMusicSource := none
      currentMusic := false } := by
  have e : stopCurrentMusic x = match x.currentMusicSource with
    | none => { x with currentMusic := false }
    | some i =>
      { x with
          sources := match sourceStop x.sources i with
            | .ok l => l
            | .error _ => x.sources
          currentMusicSource := none
          currentMusic := false } := rfl
  rw [e, hc]
  show ({ x with
      sources := match sourceStop x.sources i with
        | .ok l => l
        | .error _ => x.sources
      currentMusicSource := none
      currentMusic := false } : AudioManager) = _
  rw [sourceStop_false x.sources i hp]

theorem stopCurrentMusic_idem (x : AudioManager) :
    stopCurrentMusic (stopCurrentMusic x) = stopCurrentMusic x := by
  cases hx : x.currentMusicSource with
  | none =>
    rw [stopCurrentMusic_none x hx,
      stopCurrentMusic_none { x with currentMusic := false } hx]
  | some i =>
    have e : stopCurrentMusic x = match x.currentMusicSource with
      | none => { x with currentMusic := false }
      | some i =>
        { x with
            sources := match sourceStop x.sources i with
              | .ok l => l
              | .error _ => x.sources
            currentMusicSource := none
            currentMusic := false } := rfl
    rw [e, hx]
    rw [stopCurrentMusic_none _ rfl]

theorem playNextAudioTrack_go (x : AudioManager)
    (h1 : x.isInitialized = true) (h2 : x.isMuted = false)
    (h3 : x.currentMusic = true) (h4 : x.currentMusicSource = none) :
    playNextAudioTrack x = { x with
      sources := x.sources ++ [true]
      currentMusicSource := some x.sources.length
      currentMusic := false
      hasPlayedFirstTrack := true } := by
  have e : playNextAudioTrack x =
      if ¬ x.isInitialized ∨ x.isMuted ∨ ¬ x.currentMusic then x
      else { stopCurrentMusic x with
        sources := (stopCurrentMusic x).sources ++ [true]
        currentMusicSource := some (stopCurrentMusic x).sources.length
        hasPlayedFirstTrack := true } := rfl
  rw [e, if_neg (by rw [h1, h2, h3]; simp)]
  rw [stopCurrentMusic_none x h4]

theorem countP_set_false : ∀ (l : List Bool) (i : ℕ),
    l.get? i = some true →
    (l.set i false).countP (fun x => x) + 1 = l.countP (fun x => x)
  | [], i, h => by simp [List.get?] at h
  | b :: bs, 0, h => by
    have hb : b = true := by simpa [List.get?] using h
    subst hb
    simp [List.countP_cons]
  | b :: bs, i + 1, h => by
    have ih := countP_set_false bs i (by simpa [List.get?] using h)
    show ((b :: bs.set i false).countP (fun x => x)) + 1 = _
    rw [List.countP_cons, List.countP_cons]
    omega

theorem getq_set_self : ∀ (l : List Bool) (i : ℕ) (b : Bool),
    i < l.length → (l.set i b).get? i = some b
  | [], i, b, h => by simp at h
  | a :: bs, 0, b, _ => rfl
  | a :: bs, i + 1, b, h => getq_set_self bs i b (by simpa using h)

theorem lt_of_getq : ∀ (l : List Bool) (i : ℕ) (x : Bool),
    l.get? i = some x → i < l.length
  | [], i, x, h => by simp [List.get?] at h
  | a :: bs, 0, x, _ => by simp
  | a :: bs, i + 1, x, h => by
    have := lt_of_getq bs i x (by simpa [List.get?] using h)
    simpa using Nat.succ_lt_succ this

theorem getq_append : ∀ (l l2 : List Bool) (i : ℕ),
    i < l.length → (l ++ l2).get? i = l.get? i
  | [], _, i, h => by simp at h
  | a :: bs, l2, 0, _ => rfl
  | a :: bs, l2, i + 1, h =>
    getq_append bs l2 i (by simpa using h)

end AudioManager

/-- C8: background-music housekeeping keeps at most one source playing.
With exactly one playing tracked source, startBackgroundMusic stops it
(its slot flips to stopped), starts exactly one new tracked source, and
records the first-track flag; stopCurrentMusic is idempotent; and on a
source that already stopped by itself the stop call errors but
stopCurrentMusic swallows the error and still clears the tracking
reference and the currentMusic object. -/
theorem c8_music_exclusivity (a : AudioManager) (i : ℕ) (b : AudioManager)
    (j : ℕ)
    (hmute : a.isMuted = false)
    (hcur : a.currentMusicSource = some i)
    (hplay : a.sources.get? i = some true)
    (hcount : a.sources.countP (fun x => x) = 1)
    (hbcur : b.currentMusicSource = some j)
    (hbstop : b.sources.get? j = some false) :
    (AudioManager.startBackgroundMusic a).sources.countP (fun x => x) = 1 ∧
    (AudioManager.startBackgroundMusic a).sources.get? i = some false ∧
    (AudioManager.startBackgroundMusic a).currentMusicSource =
      some a.sources.length ∧
    (AudioManager.startBackgroundMusic a).hasPlayedFirstTrack = true ∧
    AudioManager.stopCurrentMusic (AudioManager.stopCurrentMusic a) =
      AudioManager.stopCurrentMusic a ∧
    AudioManager.sourceStop b.sources j = .error () ∧
    AudioManager.stopCurrentMusic b =
      { b with currentMusicSource := none, currentMusic := false } := by
  have hlen : i < a.sources.length := AudioManager.lt_of_getq _ _ _ hplay
  have h1 := AudioManager.stopCurrentMusic_some
      { a with
          userHasInteracted := true
          isInitialized := true
          musicFilesReady := true
          currentTrackIndex :=
            if a.musicFilesReady then a.currentTrackIndex else 0 } i hcur hplay
  have e1 : AudioManager.startBackgroundMusic a =
      AudioManager.playNextAudioTrack
        { a with
            sources := a.sources.set i false
            currentMusicSource := none
            currentMusic := true
            userHasInteracted := true
            isInitialized := true
            musicFilesReady := true
            currentTrackIndex :=
              if a.musicFilesReady then a.currentTrackIndex else 0 } := by
    have e : AudioManager.startBackgroundMusic a =
        AudioManager.playNextAudioTrack
          { AudioManager.stopCurrentMusic
              { a with
                  userHasInteracted := true
                  isInitialized := true
                  musicFilesReady := true
                  currentTrackIndex :=
                    if a.musicFilesReady then a.currentTrackIndex else 0 } with
            currentMusic := true } := rfl
    rw [e, h1]
  have e2 := AudioManager.playNextAudioTrack_go
      { a with
          sources := a.sources.set i false
          currentMusicSource := none
          currentMusic := true
          userHasInteracted := true
          isInitialized := true
          musicFilesReady := true
          currentTrackIndex :=
            if a.musicFilesReady then a.currentTrackIndex else 0 }
      rfl hmute rfl rfl
  rw [e1, e2]
  refine ⟨?_, ?_, ?_, rfl, AudioManager.stopCurrentMusic_idem a,
    AudioManager.sourceStop_false b.sources j hbstop, ?_⟩
  · show ((a.sources.set i false) ++ [true]).countP (fun x => x) = 1
    rw [List.countP_append]
    have h5 := AudioManager.countP_set_false a.sources i hplay
    rw [hcount] at h5
    have h6 : ([true] : List Bool).countP (fun x => x) = 1 := rfl
    rw [h6]
    omega
  · show ((a.sources.set i false) ++ [true]).get? i = some false
    rw [AudioManager.getq_append _ _ _ (by rw [List.length_set]; exact hlen)]
    exact AudioManager.getq_set_self a.sources i false hlen
  · show some (a.sources.set i false).length = some a.sources.length
    rw [List.length_set]
  · exact AudioManager.stopCurrentMusic_overwrite b j hbcur hbstop

/-- Witness for the C8 theorem at concrete one-source audio states. -/
theorem c8_music_exclusivity_witness :
    (exAudio.isMuted = false ∧
     exAudio.currentMusicSource = some 0 ∧
     exAudio.sources.get? 0 = some true ∧
     exAudio.sources.countP (fun x => x) = 1 ∧
     exAudioStopped.currentMusicSource = some 0 ∧
     exAudioStopped.sources.get? 0 = some false) ∧
    ((AudioManager.startBackgroundMusic exAudio).sources.countP
        (fun x => x) = 1 ∧
     (AudioManager.startBackgroundMusic exAudio).sources.get? 0 =
       some false ∧
     (AudioManager.startBackgroundMusic exAudio).currentMusicSource =
       some exAudio.sources.length ∧
     (AudioManager.startBackgroundMusic exAudio).hasPlayedFirstTrack =
       true ∧
     AudioManager.stopCurrentMusic
         (AudioManager.stopCurrentMusic exAudio) =
       AudioManager.stopCurrentMusic exAudio ∧
     AudioManager.sourceStop exAudioStopped.sources 0 = .error () ∧
     AudioManager.stopCurrentMusic exAudioStopped =
       { exAudioStopped with
           currentMusicSource := none
           currentMusic := false }) :=
  ⟨⟨rfl, rfl, rfl, rfl, rfl, rfl⟩,
    c8_music_exclusivity exAudio 0 exAudioStopped 0 rfl rfl rfl rfl rfl rfl⟩

/-- C4: a ball that enters the cavity with velocity v (recording v and
boosting by 1.8), leaves on the next frame, and whose 5-second grace
timer then expires without re-entering, ends with exactly the recorded
velocity v, and both bookkeeping entries (grace timer, original speed)
are removed. -/
theorem c4_cavity_restore (g : KnockoffArcade) (b : KABall) (t1 t2 t3 : ℚ)
    (r : Bool)
    (hballs : g.balls = [b])
    (hprim : g.ball.id = b.id)
    (hWas : b.id ∉ g.cavityBalls)
    (hT : lookupA g.cavityTimers b.id = none)
    (h1y : b.y + b.speedY < 80)
    (h1xl : ¬ b.x + b.speedX ≤ b.radius)
    (h1xr : ¬ b.x + b.speedX ≥ g.canvasWidth - b.radius)
    (h1top : ¬ b.y + b.speedY ≤ b.radius)
    (h1bot : ¬ b.y + b.speedY ≥ g.canvasHeight - b.radius)
    (h2y : ¬ b.y + b.speedY + b.speedY * 1.8 < 80)
    (h2xl : ¬ b.x + b.speedX + b.speedX * 1.8 ≤ b.radius)
    (h2xr : ¬ b.x + b.speedX + b.speedX * 1.8 ≥ g.canvasWidth - b.radius)
    (h2top : ¬ b.y + b.speedY + b.speedY * 1.8 ≤ b.radius)
    (h2bot : ¬ b.y + b.speedY + b.speedY * 1.8 ≥ g.canvasHeight - b.radius)
    (h3y : ¬ b.y + b.speedY + b.speedY * 1.8 + b.speedY * 1.8 < 80)
    (h3xl : ¬ b.x + b.speedX + b.speedX * 1.8 + b.speedX * 1.8 ≤ b.radius)
    (h3xr : ¬ b.x + b.speedX + b.speedX * 1.8 + b.speedX * 1.8 ≥
      g.canvasWidth - b.radius)
    (h3top : ¬ b.y + b.speedY + b.speedY * 1.8 + b.speedY * 1.8 ≤ b.radius)
    (h3bot : ¬ b.y + b.speedY + b.speedY * 1.8 + b.speedY * 1.8 ≥
      g.canvasHeight - b.radius)
    (hexp : t3 > t2 + 5000) :
    lookupA (KnockoffArcade.updateBalls g t1 r).originalSpeeds b.id =
      some (b.speedX, b.speedY) ∧
    (KnockoffArcade.updateBalls g t1 r).ball.speedX = b.speedX * 1.8 ∧
    (KnockoffArcade.updateBalls g t1 r).ball.speedY = b.speedY * 1.8 ∧
    lookupA (KnockoffArcade.updateBalls (KnockoffArcade.updateBalls g t1 r)
      t2 r).cavityTimers b.id = some (t2 + 5000) ∧
    (KnockoffArcade.updateBalls (KnockoffArcade.updateBalls
      (KnockoffArcade.updateBalls g t1 r) t2 r) t3 r).ball.speedX =
      b.speedX ∧
    (KnockoffArcade.updateBalls (KnockoffArcade.updateBalls
      (KnockoffArcade.updateBalls g t1 r) t2 r) t3 r).ball.speedY =
      b.speedY ∧
    lookupA (KnockoffArcade.updateBalls (KnockoffArcade.updateBalls
      (KnockoffArcade.updateBalls g t1 r) t2 r) t3 r).cavityTimers b.id =
      none ∧
    lookupA (KnockoffArcade.updateBalls (KnockoffArcade.updateBalls
      (KnockoffArcade.updateBalls g t1 r) t2 r) t3 r).originalSpeeds b.id =
      none := by
  have hstep1 : KnockoffArcade.updateBallStep g b t1 =
      ({ g with
          cavityBalls := insertS g.cavityBalls b.id
          score := g.score + 50
          originalSpeeds := setA g.originalSpeeds b.id
            (b.speedX, b.speedY) },
       { b with
          x := b.x + b.speedX
          y := b.y + b.speedY
          speedX := b.speedX * 1.8
          speedY := b.speedY * 1.8 }, true) := by
    refine KnockoffArcade.updateBallStep_noWalls g b t1
      { g with
          cavityBalls := insertS g.cavityBalls b.id
          score := g.score + 50
          originalSpeeds := setA g.originalSpeeds b.id
            (b.speedX, b.speedY) }
      { b with
          x := b.x + b.speedX
          y := b.y + b.speedY
          speedX := b.speedX * 1.8
          speedY := b.speedY * 1.8 }
      _ _ ?_ ?_ h1xl h1xr h1top h1bot
    · exact KnockoffArcade.cavityTransition_enter g
        { b with x := b.x + b.speedX, y := b.y + b.speedY } t1 h1y hWas
    · exact KnockoffArcade.cavityExpiry_none _ _ t1 hT
  have hS1 : KnockoffArcade.updateBalls g t1 r =
      { g with
          cavityBalls := insertS g.cavityBalls b.id
          score := g.score + 50
          originalSpeeds := setA g.originalSpeeds b.id (b.speedX, b.speedY)
          balls := [{ b with
            x := b.x + b.speedX
            y := b.y + b.speedY
            speedX := b.speedX * 1.8
            speedY := b.speedY * 1.8 }]
          ball := { b with
            x := b.x + b.speedX
            y := b.y + b.speedY
            speedX := b.speedX * 1.8
            speedY := b.speedY * 1.8 } } := by
    rw [KnockoffArcade.updateBalls_single g t1 r b _ _ hballs hstep1]
    rw [KnockoffArcade.syncPrimary_single_match _ _ (by
      show (b.id == g.ball.id) = true
      rw [hprim, beq_self_eq_true])]
  have hstep2 : KnockoffArcade.updateBallStep
      { g with
          cavityBalls := insertS g.cavityBalls b.id
          score := g.score + 50
          originalSpeeds := setA g.originalSpeeds b.id (b.speedX, b.speedY)
          balls := [{ b with
            x := b.x + b.speedX
            y := b.y + b.speedY
            speedX := b.speedX * 1.8
            speedY := b.speedY * 1.8 }]
          ball := { b with
            x := b.x + b.speedX
            y := b.y + b.speedY
            speedX := b.speedX * 1.8
            speedY := b.speedY * 1.8 } }
      { b with
          x := b.x + b.speedX
          y := b.y + b.speedY
          speedX := b.speedX * 1.8
          speedY := b.speedY * 1.8 } t2 =
      ({ g with
          cavityBalls := eraseS (insertS g.cavityBalls b.id) b.id
          cavityTimers := setA g.cavityTimers b.id (t2 + 5000)
          score := g.score + 50
          originalSpeeds := setA g.originalSpeeds b.id (b.speedX, b.speedY)
          balls := [{ b with
            x := b.x + b.speedX
            y := b.y + b.speedY
            speedX := b.speedX * 1.8
            speedY := b.speedY * 1.8 }]
          ball := { b with
            x := b.x + b.speedX
            y := b.y + b.speedY
            speedX := b.speedX * 1.8
            speedY := b.speedY * 1.8 } },
       { b with
          x := b.x + b.speedX + b.speedX * 1.8
          y := b.y + b.speedY + b.speedY * 1.8
          speedX := b.speedX * 1.8
          speedY := b.speedY * 1.8 }, true) := by
    refine KnockoffArcade.updateBallStep_noWalls _ _ t2
      { g with
          cavityBalls := eraseS (insertS g.cavityBalls b.id) b.id
          cavityTimers := setA g.cavityTimers b.id (t2 + 5000)
          score := g.score + 50
          originalSpeeds := setA g.originalSpeeds b.id (b.speedX, b.speedY)
          balls := [{ b with
            x := b.x + b.speedX
            y := b.y + b.speedY
            speedX := b.speedX * 1.8
            speedY := b.speedY * 1.8 }]
          ball := { b with
            x := b.x + b.speedX
            y := b.y + b.speedY
            speedX := b.speedX * 1.8
            speedY := b.speedY * 1.8 } }
      { b with
          x := b.x + b.speedX + b.speedX * 1.8
          y := b.y + b.speedY + b.speedY * 1.8
          speedX := b.speedX * 1.8
          speedY := b.speedY * 1.8 }
      _ _ ?_ ?_ h2xl h2xr h2top h2bot
    · exact KnockoffArcade.cavityTransition_leave _ _ t2 h2y (by
        show b.id ∈ insertS g.cavityBalls b.id
        rw [mem_insertS_iff]
        exact Or.inl rfl)
    · exact KnockoffArcade.cavityExpiry_wait _ _ t2 (t2 + 5000)
        (lookupA_setA_self g.cavityTimers b.id (t2 + 5000)) (by linarith)
  have hS2 : KnockoffArcade.updateBalls
      { g with
          cavityBalls := insertS g.cavityBalls b.id
          score := g.score + 50
          originalSpeeds := setA g.originalSpeeds b.id (b.speedX, b.speedY)
          balls := [{ b with
            x := b.x + b.speedX
            y := b.y + b.speedY
            speedX := b.speedX * 1.8
            speedY := b.speedY * 1.8 }]
          ball := { b with
            x := b.x + b.speedX
            y := b.y + b.speedY
            speedX := b.speedX * 1.8
            speedY := b.speedY * 1.8 } } t2 r =
      { g with
          cavityBalls := eraseS (insertS g.cavityBalls b.id) b.id
          cavityTimers := setA g.cavityTimers b.id (t2 + 5000)
          score := g.score + 50
          originalSpeeds := setA g.originalSpeeds b.id (b.speedX, b.speedY)
          balls := [{ b with
            x := b.x + b.speedX + b.speedX * 1.8
            y := b.y + b.speedY + b.speedY * 1.8
            speedX := b.speedX * 1.8
            speedY := b.speedY * 1.8 }]
          ball := { b with
            x := b.x + b.speedX + b.speedX * 1.8
            y := b.y + b.speedY + b.speedY * 1.8
            speedX := b.speedX * 1.8
            speedY := b.speedY * 1.8 } } := by
    rw [KnockoffArcade.updateBalls_single _ t2 r
      { b with
          x := b.x + b.speedX
          y := b.y + b.speedY
          speedX := b.speedX * 1.8
          speedY := b.speedY * 1.8 } _ _ rfl hstep2]
    rw [KnockoffArcade.syncPrimary_single_match _ _ (by
      show (b.id == b.id) = true
      exact beq_self_eq_true b.id)]
  have hmem3 : b.id ∉ eraseS (insertS g.cavityBalls b.id) b.id :=
    fun hm => ((mem_eraseS_iff _ _ _).mp hm).2 rfl
  have hstep3 : KnockoffArcade.updateBallStep
      { g with
          cavityBalls := eraseS (insertS g.cavityBalls b.id) b.id
          cavityTimers := setA g.cavityTimers b.id (t2 + 5000)
          score := g.score + 50
          originalSpeeds := setA g.originalSpeeds b.id (b.speedX, b.speedY)
          balls := [{ b with
            x := b.x + b.speedX + b.speedX * 1.8
            y := b.y + b.speedY + b.speedY * 1.8
            speedX := b.speedX * 1.8
            speedY := b.speedY * 1.8 }]
          ball := { b with
            x := b.x + b.speedX + b.speedX * 1.8
            y := b.y + b.speedY + b.speedY * 1.8
            speedX := b.speedX * 1.8
            speedY := b.speedY * 1.8 } }
      { b with
          x := b.x + b.speedX + b.speedX * 1.8
          y := b.y + b.speedY + b.speedY * 1.8
          speedX := b.speedX * 1.8
          speedY := b.speedY * 1.8 } t3 =
      ({ g with
          cavityBalls := eraseS (insertS g.cavityBalls b.id) b.id
          cavityTimers := eraseA (setA g.cavityTimers b.id (t2 + 5000)) b.id
          score := g.score + 50
          originalSpeeds := eraseA (setA g.originalSpeeds b.id
            (b.speedX, b.speedY)) b.id
          balls := [{ b with
            x := b.x + b.speedX + b.speedX * 1.8
            y := b.y + b.speedY + b.speedY * 1.8
            speedX := b.speedX * 1.8
            speedY := b.speedY * 1.8 }]
          ball := { b with
            x := b.x + b.speedX + b.speedX * 1.8
            y := b.y + b.speedY + b.speedY * 1.8
            speedX := b.speedX * 1.8
            speedY := b.speedY * 1.8 } },
       { b with
          x := b.x + b.speedX + b.speedX * 1.8 + b.speedX * 1.8
          y := b.y + b.speedY + b.speedY * 1.8 + b.speedY * 1.8
          speedX := b.speedX
          speedY := b.speedY }, true) := by
    refine KnockoffArcade.updateBallStep_noWalls _ _ t3
      { g with
          cavityBalls := eraseS (insertS g.cavityBalls b.id) b.id
          cavityTimers := setA g.cavityTimers b.id (t2 + 5000)
          score := g.score + 50
          originalSpeeds := setA g.originalSpeeds b.id (b.speedX, b.speedY)
          balls := [{ b with
            x := b.x + b.speedX + b.speedX * 1.8
            y := b.y + b.speedY + b.speedY * 1.8
            speedX := b.speedX * 1.8
            speedY := b.speedY * 1.8 }]
          ball := { b with
            x := b.x + b.speedX + b.speedX * 1.8
            y := b.y + b.speedY + b.speedY * 1.8
            speedX := b.speedX * 1.8
            speedY := b.speedY * 1.8 } }
      { b with
          x := b.x + b.speedX + b.speedX * 1.8 + b.speedX * 1.8
          y := b.y + b.speedY + b.speedY * 1.8 + b.speedY * 1.8
          speedX := b.speedX * 1.8
          speedY := b.speedY * 1.8 }
      _ _ ?_ ?_ h3xl h3xr h3top h3bot
    · exact KnockoffArcade.cavityTransition_stay _ _ t3
        ⟨fun hy => absurd hy h3y, fun hm => absurd hm hmem3⟩
    · exact KnockoffArcade.cavityExpiry_restore _ _ t3 (t2 + 5000)
        (b.speedX, b.speedY)
        (lookupA_setA_self g.cavityTimers b.id (t2 + 5000)) hexp
        (lookupA_setA_self g.originalSpeeds b.id (b.speedX, b.speedY))
  have hS3 : KnockoffArcade.updateBalls
      { g with
          cavityBalls := eraseS (insertS g.cavityBalls b.id) b.id
          cavityTimers := setA g.cavityTimers b.id (t2 + 5000)
          score := g.score + 50
          originalSpeeds := setA g.originalSpeeds b.id (b.speedX, b.speedY)
          balls := [{ b with
            x := b.x + b.speedX + b.speedX * 1.8
            y := b.y + b.speedY + b.speedY * 1.8
            speedX := b.speedX * 1.8
            speedY := b.speedY * 1.8 }]
          ball := { b with
            x := b.x + b.speedX + b.speedX * 1.8
            y := b.y + b.speedY + b.speedY * 1.8
            speedX := b.speedX * 1.8
            speedY := b.speedY * 1.8 } } t3 r =
      { g with
          cavityBalls := eraseS (insertS g.cavityBalls b.id) b.id
          cavityTimers := eraseA (setA g.cavityTimers b.id (t2 + 5000)) b.id
          score := g.score + 50
          originalSpeeds := eraseA (setA g.originalSpeeds b.id
            (b.speedX, b.speedY)) b.id
          balls := [{ b with
            x := b.x + b.speedX + b.speedX * 1.8 + b.speedX * 1.8
            y := b.y + b.speedY + b.speedY * 1.8 + b.speedY * 1.8
            speedX := b.speedX
            speedY := b.speedY }]
          ball := { b with
            x := b.x + b.speedX + b.speedX * 1.8 + b.speedX * 1.8
            y := b.y + b.speedY + b.speedY * 1.8 + b.speedY * 1.8
            speedX := b.speedX
            speedY := b.speedY } } := by
    rw [KnockoffArcade.updateBalls_single _ t3 r
      { b with
          x := b.x + b.speedX + b.speedX * 1.8
          y := b.y + b.speedY + b.speedY * 1.8
          speedX := b.speedX * 1.8
          speedY := b.speedY * 1.8 } _ _ rfl hstep3]
    rw [KnockoffArcade.syncPrimary_single_match _ _ (by
      show (b.id == b.id) = true
      exact beq_self_eq_true b.id)]
  rw [hS1, hS2, hS3]
  refine ⟨?_, rfl, rfl, ?_, rfl, rfl, ?_, ?_⟩
  · exact lookupA_setA_self g.originalSpeeds b.id (b.speedX, b.speedY)
  · exact lookupA_setA_self g.cavityTimers b.id (t2 + 5000)
  · exact lookupA_eraseA_self (setA g.cavityTimers b.id (t2 + 5000)) b.id
  · exact lookupA_eraseA_self
      (setA g.originalSpeeds b.id (b.speedX, b.speedY)) b.id

/-- Witness for the C4 theorem: a concrete enter, leave, expire run with
speed (0, 20) boosted to (0, 36) and restored exactly. -/
theorem c4_cavity_restore_witness :
    (c4Start2.balls = [c4Ball2] ∧
     c4Start2.ball.id = c4Ball2.id ∧
     c4Ball2.id ∉ c4Start2.cavityBalls ∧
     lookupA c4Start2.cavityTimers c4Ball2.id = none ∧
     (6000 : ℚ) > 100 + 5000) ∧
    (lookupA (KnockoffArcade.updateBalls c4Start2 0 false).originalSpeeds
        c4Ball2.id = some (c4Ball2.speedX, c4Ball2.speedY) ∧
     (KnockoffArcade.updateBalls c4Start2 0 false).ball.speedX =
       c4Ball2.speedX * 1.8 ∧
     (KnockoffArcade.updateBalls c4Start2 0 false).ball.speedY =
       c4Ball2.speedY * 1.8 ∧
     lookupA (KnockoffArcade.updateBalls
       (KnockoffArcade.updateBalls c4Start2 0 false) 100
       false).cavityTimers c4Ball2.id = some (100 + 5000) ∧
     (KnockoffArcade.updateBalls (KnockoffArcade.updateBalls
       (KnockoffArcade.updateBalls c4Start2 0 false) 100 false) 6000
       false).ball.speedX = c4Ball2.speedX ∧
     (KnockoffArcade.updateBalls (KnockoffArcade.updateBalls
       (KnockoffArcade.updateBalls c4Start2 0 false) 100 false) 6000
       false).ball.speedY = c4Ball2.speedY ∧
     lookupA (KnockoffArcade.updateBalls (KnockoffArcade.updateBalls
       (KnockoffArcade.updateBalls c4Start2 0 false) 100 false) 6000
       false).cavityTimers c4Ball2.id = none ∧
     lookupA (KnockoffArcade.updateBalls (KnockoffArcade.updateBalls
       (KnockoffArcade.updateBalls c4Start2 0 false) 100 false) 6000
       false).originalSpeeds c4Ball2.id = none) :=
  ⟨⟨rfl, rfl, by decide, rfl, by norm_num⟩,
   c4_cavity_restore c4Start2 c4Ball2 0 100 6000 false rfl rfl (by decide)
     rfl
     (by norm_num [c4Ball2])
     (by norm_num [c4Ball2])
     (by norm_num [c4Ball2, c4Start2, c4Start])
     (by norm_num [c4Ball2])
     (by norm_num [c4Ball2, c4Start2, c4Start])
     (by norm_num [c4Ball2])
     (by norm_num [c4Ball2])
     (by norm_num [c4Ball2, c4Start2, c4Start])
     (by norm_num [c4Ball2])
     (by norm_num [c4Ball2, c4Start2, c4Start])
     (by norm_num [c4Ball2])
     (by norm_num [c4Ball2])
     (by norm_num [c4Ball2, c4Start2, c4Start])
     (by norm_num [c4Ball2])
     (by norm_num [c4Ball2, c4Start2, c4Start])
     (by norm_num)⟩

/-- C3 (counterexample): starting from an ordinary in-cavity state, two
frames of the top-level update (leave the cavity, then re-enter while the
5 second grace timer is still running) leave ball 0 simultaneously in the
in-cavity set and in the grace-timer map, so the three cavity states are
not mutually exclusive. -/
theorem c3_cavity_overlap_counterexample :
    c3Start.cavityBalls = [0] ∧
    c3Start.cavityTimers = [] ∧
    (KnockoffArcade.update c3Start 0 false exRolls).cavityBalls = [] ∧
    lookupA (KnockoffArcade.update c3Start 0 false
      exRolls).cavityTimers 0 = some 5000 ∧
    0 ∈ (KnockoffArcade.update (KnockoffArcade.update c3Start 0 false
      exRolls) 0 false exRolls).cavityBalls ∧
    lookupA (KnockoffArcade.update (KnockoffArcade.update c3Start 0 false
      exRolls) 0 false exRolls).cavityTimers 0 = some 5000 := by
  rw [KnockoffArcade.frameA, KnockoffArcade.frameB]
  exact ⟨rfl, rfl, rfl, rfl, by decide, rfl⟩

/-- C3 (amended): the mutual-exclusion invariant (no ball is in the
in-cavity set and the grace-timer map at once) is preserved by one frame
of the top-level update provided no ball with a still-running grace timer
re-enters the cavity region on that frame; the re-entry case breaks it. -/
theorem c3_cavity_exclusive_amended (g : KnockoffArcade) (now : ℚ)
    (r : Bool) (rolls : ℕ → Bool × Fin 5)
    (hInv : CavityStateInv g)
    (hNR : NoGraceReentry g now)
    (hnd : (g.balls.map (fun b => b.id)).Nodup) :
    CavityStateInv (KnockoffArcade.update g now r rolls) :=
  KnockoffArcade.update_cavity_inv g now r rolls hInv hNR hnd

/-- Witness for the amended C3 theorem at a concrete five-ball state with
no cavity bookkeeping. -/
theorem c3_cavity_exclusive_amended_witness :
    CavityStateInv ex9 ∧ NoGraceReentry ex9 0 ∧
    (ex9.balls.map (fun b => b.id)).Nodup ∧
    CavityStateInv (KnockoffArcade.update ex9 0 false exRolls) :=
  ⟨fun k hk => absurd hk (List.not_mem_nil k),
   fun b _ _ _ t ht => Option.noConfusion ht,
   by decide,
   c3_cavity_exclusive_amended ex9 0 false exRolls
     (fun k hk => absurd hk (List.not_mem_nil k))
     (fun b _ _ _ t ht => Option.noConfusion ht)
     (by decide)⟩

namespace Ball

theorem post_boundary_position (now : ℚ) (sq : ℚ → ℚ) (x : Ball) :
    (updateVisualEffects (updateTrails (updateBallPowerUps x now) now)
      sq).position = x.position := by
  have h2 : ∀ y : Ball, (updateTrails y now).position = y.position := by
    intro y
    unfold updateTrails
    simp only []
    split_ifs <;> rfl
  have h3 : ∀ y : Ball, (updateVisualEffects y sq).position = y.position :=
    fun _ => rfl
  rw [h3, h2]
  rfl

theorem post_boundary_velocity (now : ℚ) (sq : ℚ → ℚ) (x : Ball) :
    (updateVisualEffects (updateTrails (updateBallPowerUps x now) now)
      sq).velocity = x.velocity := by
  have h2 : ∀ y : Ball, (updateTrails y now).velocity = y.velocity := by
    intro y
    unfold updateTrails
    simp only []
    split_ifs <;> rfl
  have h3 : ∀ y : Ball, (updateVisualEffects y sq).velocity = y.velocity :=
    fun _ => rfl
  rw [h3, h2]
  rfl

theorem update_as_chain (dt bw now : ℚ) (sq : ℚ → ℚ) (x : Ball) :
    update x dt bw now sq =
      updateVisualEffects (updateTrails (updateBallPowerUps
        (handleBoundaryCollisions
          { x with position :=
            { x := x.position.x + x.velocity.x * dt
              y := x.position.y + x.velocity.y * dt } } bw) now) now) sq :=
  rfl

end Ball

/-- C6: one Ball.update call on a ball past the left wall moving further
left clamps position.x to the radius and reflects velocity.x to strictly
positive; symmetrically a ball at or past the right wall moving right is
clamped to boundsWidth minus radius with velocity.x turned strictly
negative, and a ball above the top wall moving up is clamped to
position.y = radius with velocity.y turned strictly positive. -/
theorem c6_wall_reflection (b : Ball) (dt bw now : ℚ) (sq : ℚ → ℚ)
    (hdt : 0 ≤ dt) (hr : 0 ≤ b.radius) (hrw : b.radius < bw) :
    (b.position.x ≤ 0 → b.velocity.x < 0 →
      (Ball.update b dt bw now sq).position.x = b.radius ∧
      0 < (Ball.update b dt bw now sq).velocity.x) ∧
    (bw ≤ b.position.x → 0 < b.velocity.x →
      (Ball.update b dt bw now sq).position.x = bw - b.radius ∧
      (Ball.update b dt bw now sq).velocity.x < 0) ∧
    (b.position.y ≤ 0 → b.velocity.y < 0 →
      (Ball.update b dt bw now sq).position.y = b.radius ∧
      0 < (Ball.update b dt bw now sq).velocity.y) := by
  rw [Ball.update_as_chain dt bw now sq b, Ball.post_boundary_position,
    Ball.post_boundary_velocity]
  refine ⟨fun h1 h2 => ?_, fun h1 h2 => ?_, fun h1 h2 => ?_⟩
  · have hcx : b.position.x + b.velocity.x * dt - b.radius ≤ 0 := by
      nlinarith [mul_nonpos_of_nonpos_of_nonneg (le_of_lt h2) hdt]
    unfold Ball.handleBoundaryCollisions
    simp only []
    split_ifs <;>
      first
        | exact ⟨rfl, abs_pos.mpr (ne_of_lt h2)⟩
        | { simp only [] at *; linarith }
  · have hc1 : ¬ (b.position.x + b.velocity.x * dt - b.radius ≤ 0) := by
      push_neg
      nlinarith [mul_nonneg (le_of_lt h2) hdt]
    have hc2 : b.position.x + b.velocity.x * dt + b.radius ≥ bw := by
      nlinarith [mul_nonneg (le_of_lt h2) hdt]
    unfold Ball.handleBoundaryCollisions
    simp only []
    split_ifs <;>
      first
        | exact ⟨rfl, neg_neg_of_pos (abs_pos.mpr (ne_of_gt h2))⟩
        | { simp only [] at *; linarith }
  · have hcy : b.position.y + b.velocity.y * dt - b.radius ≤ 0 := by
      nlinarith [mul_nonpos_of_nonpos_of_nonneg (le_of_lt h2) hdt]
    unfold Ball.handleBoundaryCollisions
    simp only []
    split_ifs <;>
      first
        | exact ⟨rfl, abs_pos.mpr (ne_of_lt h2)⟩
        | { simp only [] at *; linarith }

/-- Witness for the C6 theorem: the spec's own example ball at x = -5 with
velocityX = -2 ends one update at x = radius moving right. -/
theorem c6_wall_reflection_witness :
    (0:ℚ) ≤ 1 ∧ 0 ≤ exBall6.radius ∧ exBall6.radius < 800 ∧
    exBall6.position.x ≤ 0 ∧ exBall6.velocity.x < 0 ∧
    ((Ball.update exBall6 1 800 0 (fun _ => 0)).position.x =
       exBall6.radius ∧
     0 < (Ball.update exBall6 1 800 0 (fun _ => 0)).velocity.x) :=
  ⟨by norm_num, by norm_num [exBall6], by norm_num [exBall6],
   by norm_num [exBall6], by norm_num [exBall6],
   (c6_wall_reflection exBall6 1 800 0 (fun _ => 0) (by norm_num)
     (by norm_num [exBall6]) (by norm_num [exBall6])).1
     (by norm_num [exBall6]) (by norm_num [exBall6])⟩
